import Mathlib

/-!
Verification of the taland/gltf loader core against its natural-language
specification.  The C sources under `src/` are shallowly embedded: machine
integers become `Nat`/`Int` (all relevant quantities are `uint32_t` values,
whose `size_t` intermediate arithmetic never exceeds `2 ^ 64`, and the code's
explicit overflow guards are carried over verbatim), `float` arithmetic that
the claims treat exactly is modelled over `ℚ`, fallible functions return
`Except`/`Option`, and byte buffers are `List Nat`.
-/

namespace Gltf

/-- `gltf_result` from `include/gltf/gltf.h`. -/
inductive GltfResult where
  | ok
  | errIO
  | errParse
  | errRange
  | errInvalid
  | errUnsupported
  deriving DecidableEq, Repr

/-- `UINT32_MAX`. -/
def U32_MAX : Nat := 4294967295

/-- `SIZE_MAX` (64-bit build). -/
def SIZE_MAX : Nat := 18446744073709551615

/-- Component-type constants from `gltf_component_type`. -/
def GLTF_COMP_I8 : Nat := 5120
def GLTF_COMP_U8 : Nat := 5121
def GLTF_COMP_I16 : Nat := 5122
def GLTF_COMP_U16 : Nat := 5123
def GLTF_COMP_U32 : Nat := 5125
def GLTF_COMP_F32 : Nat := 5126

/-- Accessor element-type constants from `gltf_accessor_type`. -/
def GLTF_ACCESSOR_SCALAR : Nat := 1
def GLTF_ACCESSOR_VEC2 : Nat := 2
def GLTF_ACCESSOR_VEC3 : Nat := 3
def GLTF_ACCESSOR_VEC4 : Nat := 4
def GLTF_ACCESSOR_MAT2 : Nat := 5
def GLTF_ACCESSOR_MAT3 : Nat := 6
def GLTF_ACCESSOR_MAT4 : Nat := 7

/-- Primitive-mode constants from `gltf_prim_mode`. -/
def GLTF_PRIM_TRIANGLES : Nat := 4
def GLTF_PRIM_TRIANGLE_STRIP : Nat := 5
def GLTF_PRIM_TRIANGLE_FAN : Nat := 6

/-- Attribute-semantic constants from `gltf_attr_semantic`. -/
def GLTF_ATTR_UNKNOWN : Nat := 0
def GLTF_ATTR_POSITION : Nat := 1
def GLTF_ATTR_NORMAL : Nat := 2
def GLTF_ATTR_TANGENT : Nat := 3
def GLTF_ATTR_TEXCOORD : Nat := 4
def GLTF_ATTR_COLOR : Nat := 5
def GLTF_ATTR_JOINTS : Nat := 6
def GLTF_ATTR_WEIGHTS : Nat := 7

/-- `gltf_range_u32` (`src/gltf_internal.h`): half-open range into the shared
index pool. -/
structure RangeU32 where
  first : Nat
  count : Nat
  deriving DecidableEq, Repr

/-- `gltf_node` (`src/gltf_internal.h`).  `float` members are modelled over
`ℚ`; the name (an arena reference) is modelled as the optional string it
denotes. -/
structure GltfNode where
  name : Option String := none
  mesh : Int := -1
  children : RangeU32 := ⟨0, 0⟩
  has_matrix : Bool := false
  matrix : List ℚ := List.replicate 16 0
  translation : List ℚ := [0, 0, 0]
  rotation : List ℚ := [0, 0, 0, 0]
  scale : List ℚ := [0, 0, 0]
  deriving DecidableEq, Repr

/-- `gltf_primitive` (`src/gltf_internal.h`). -/
structure GltfPrimitive where
  attributes_first : Nat := 0
  attributes_count : Nat := 0
  indices_accessor : Int := -1
  mode : Nat := GLTF_PRIM_TRIANGLES
  deriving DecidableEq, Repr

/-- `gltf_prim_attr` (`src/gltf_internal.h`). -/
structure GltfPrimAttr where
  semantic : Nat := GLTF_ATTR_UNKNOWN
  set_index : Nat := 0
  accessor_index : Nat := 0
  deriving DecidableEq, Repr

/-- `gltf_mesh` (`src/gltf_internal.h`). -/
structure GltfMesh where
  name : Option String := none
  primitive_first : Nat := 0
  primitive_count : Nat := 0
  deriving DecidableEq, Repr

/-- `gltf_scene` (`src/gltf_internal.h`). -/
structure GltfScene where
  name : Option String := none
  nodes : RangeU32 := ⟨0, 0⟩
  deriving DecidableEq, Repr

/-- `gltf_accessor` (`src/gltf_internal.h`). -/
structure GltfAccessor where
  buffer_view : Int := -1
  byte_offset : Nat := 0
  component_type : Nat := 0
  count : Nat := 0
  type : Nat := 0
  normalized : Bool := false
  deriving DecidableEq, Repr

/-- `gltf_buffer_view` (`src/gltf_internal.h`). -/
structure GltfBufferView where
  buffer : Nat := 0
  byte_offset : Nat := 0
  byte_length : Nat := 0
  byte_stride : Nat := 0
  target : Nat := 0
  deriving DecidableEq, Repr

/-- `gltf_buffer` (`src/gltf_internal.h`): declared length plus the loaded
bytes; `data = none` models a NULL data pointer. -/
structure GltfBuffer where
  byte_length : Nat := 0
  data : Option (List Nat) := none
  deriving DecidableEq, Repr

/-- `gltf_doc` (`src/gltf_internal.h`), restricted to the members the claims
exercise.  The per-array `*_count` fields equal the list lengths, exactly as
the loader maintains them. -/
structure GltfDoc where
  scenes : List GltfScene := []
  nodes : List GltfNode := []
  meshes : List GltfMesh := []
  primitives : List GltfPrimitive := []
  prim_attrs : List GltfPrimAttr := []
  buffers : List GltfBuffer := []
  buffer_views : List GltfBufferView := []
  accessors : List GltfAccessor := []
  indices_u32 : List Nat := []
  deriving DecidableEq, Repr

/-- `gltf_span` (`include/gltf/gltf.h`).  The data pointer is modelled as the
byte offset of element 0 inside the backing buffer's data (`none` = NULL). -/
structure GltfSpan where
  ptr : Option Nat
  count : Nat
  stride : Nat
  elem_size : Nat
  deriving DecidableEq, Repr

/-- `gltf_accessor_component_count` (`src/gltf_decode.c`): components per
element for an accessor type; `none` models the `return 0` failure. -/
def gltf_accessor_component_count (accessor_type : Nat) : Option Nat :=
  if accessor_type = GLTF_ACCESSOR_SCALAR then some 1
  else if accessor_type = GLTF_ACCESSOR_VEC2 then some 2
  else if accessor_type = GLTF_ACCESSOR_VEC3 then some 3
  else if accessor_type = GLTF_ACCESSOR_VEC4 then some 4
  else if accessor_type = GLTF_ACCESSOR_MAT2 then some 4
  else if accessor_type = GLTF_ACCESSOR_MAT3 then some 9
  else if accessor_type = GLTF_ACCESSOR_MAT4 then some 16
  else none

/-- `gltf_component_size_bytes` (`src/gltf_decode.c`). -/
def gltf_component_size_bytes (component_type : Nat) : Option Nat :=
  if component_type = GLTF_COMP_I8 ∨ component_type = GLTF_COMP_U8 then some 1
  else if component_type = GLTF_COMP_I16 ∨ component_type = GLTF_COMP_U16 then some 2
  else if component_type = GLTF_COMP_U32 ∨ component_type = GLTF_COMP_F32 then some 4
  else none

/-- The accessor `a` inspected by `gltf_accessor_span`. -/
def span_a (doc : GltfDoc) (accessor_index : Nat) : GltfAccessor :=
  doc.accessors.getD accessor_index {}

/-- The bufferView `bv` inspected by `gltf_accessor_span`. -/
def span_bv (doc : GltfDoc) (accessor_index : Nat) : GltfBufferView :=
  doc.buffer_views.getD (span_a doc accessor_index).buffer_view.toNat {}

/-- The buffer `b` inspected by `gltf_accessor_span`. -/
def span_b (doc : GltfDoc) (accessor_index : Nat) : GltfBuffer :=
  doc.buffers.getD (span_bv doc accessor_index).buffer {}

/-- `comp_count` in `gltf_accessor_span` (value under its success check). -/
def span_comp_count (doc : GltfDoc) (accessor_index : Nat) : Nat :=
  (gltf_accessor_component_count (span_a doc accessor_index).type).getD 0

/-- `comp_size` in `gltf_accessor_span` (value under its success check). -/
def span_comp_size (doc : GltfDoc) (accessor_index : Nat) : Nat :=
  (gltf_component_size_bytes (span_a doc accessor_index).component_type).getD 0

/-- `elem_size = comp_count * comp_size` in `gltf_accessor_span`. -/
def span_elem_size (doc : GltfDoc) (accessor_index : Nat) : Nat :=
  span_comp_count doc accessor_index * span_comp_size doc accessor_index

/-- `stride = byteStride if nonzero else elem_size` in `gltf_accessor_span`. -/
def span_stride (doc : GltfDoc) (accessor_index : Nat) : Nat :=
  if (span_bv doc accessor_index).byte_stride ≠ 0 then
    (span_bv doc accessor_index).byte_stride
  else span_elem_size doc accessor_index

/-- `gltf_accessor_span` (`src/gltf_accessor.c`).  The NULL-argument guards of
the C function concern the out-parameters and are dropped; every other check
is mirrored in order (the two `match`es on the component metadata helpers
become `isNone` guards ahead of uses of the unwrapped values). -/
def gltf_accessor_span (doc : GltfDoc) (accessor_index : Nat) :
    Except GltfResult GltfSpan :=
  if accessor_index ≥ doc.accessors.length then .error .errInvalid
  else if (span_a doc accessor_index).buffer_view < 0 then .error .errParse
  else if (span_a doc accessor_index).buffer_view.toNat ≥
      doc.buffer_views.length then .error .errParse
  else if (span_bv doc accessor_index).buffer ≥ doc.buffers.length then
    .error .errParse
  else if (span_b doc accessor_index).byte_length > 0 ∧
      (span_b doc accessor_index).data = none then .error .errParse
  else if (gltf_accessor_component_count (span_a doc accessor_index).type).isNone then
    .error .errParse
  else if (gltf_component_size_bytes (span_a doc accessor_index).component_type).isNone then
    .error .errParse
  else if span_comp_count doc accessor_index >
      U32_MAX / span_comp_size doc accessor_index then .error .errParse
  else if span_stride doc accessor_index < span_elem_size doc accessor_index then
    .error .errParse
  else if (span_bv doc accessor_index).byte_offset >
      SIZE_MAX - (span_a doc accessor_index).byte_offset then .error .errParse
  else if (span_a doc accessor_index).byte_offset >
      (span_bv doc accessor_index).byte_length then .error .errParse
  else if (span_a doc accessor_index).count > 0 ∧
      (span_a doc accessor_index).byte_offset +
        ((span_a doc accessor_index).count - 1) * span_stride doc accessor_index >
        SIZE_MAX - span_elem_size doc accessor_index then .error .errParse
  else if (span_a doc accessor_index).count > 0 ∧
      (span_a doc accessor_index).byte_offset +
        ((span_a doc accessor_index).count - 1) * span_stride doc accessor_index +
        span_elem_size doc accessor_index >
        (span_bv doc accessor_index).byte_length then .error .errParse
  else
    .ok { ptr := if (span_b doc accessor_index).data.isSome ∧
                    (span_a doc accessor_index).count > 0 then
                   some ((span_bv doc accessor_index).byte_offset +
                         (span_a doc accessor_index).byte_offset)
                 else none
          count := (span_a doc accessor_index).count
          stride := span_stride doc accessor_index
          elem_size := span_elem_size doc accessor_index }

/-- `rd_u16_le` (`src/gltf_decode.c`): little-endian 16-bit read.  `p` is a
byte list positioned at the read address; reads past the end yield 0 (the C
code never reaches them on the validated paths exercised here). -/
def rd_u16_le (p : List Nat) (off : Nat) : Nat :=
  p.getD off 0 % 256 + (p.getD (off + 1) 0 % 256) * 256

/-- `rd_u32_le` (`src/gltf_decode.c`). -/
def rd_u32_le (p : List Nat) (off : Nat) : Nat :=
  p.getD off 0 % 256 + (p.getD (off + 1) 0 % 256) * 256 +
    (p.getD (off + 2) 0 % 256) * 65536 + (p.getD (off + 3) 0 % 256) * 16777216

/-- `gltf_doc_accessor_info` (`src/gltf_accessor.c`): `(count, component_type,
type, normalized)` for an in-range accessor; `none` models the `return 0`
paths. -/
def gltf_doc_accessor_info (doc : GltfDoc) (accessor_index : Nat) :
    Option (Nat × Nat × Nat × Bool) :=
  if accessor_index ≥ doc.accessors.length then none
  else
    let a := doc.accessors.getD accessor_index {}
    some (a.count, a.component_type, a.type, a.normalized)

/-- `gltf_doc_primitive_mode` (`src/gltf_primitive.c`). -/
def gltf_doc_primitive_mode (doc : GltfDoc) (primitive_index : Nat) : Nat :=
  if primitive_index ≥ doc.primitives.length then GLTF_PRIM_TRIANGLES
  else (doc.primitives.getD primitive_index {}).mode

/-- `gltf_doc_primitive_indices_accessor` (`src/gltf_primitive.c`): the raw
`indices_accessor` field together with the `>= 0` flag the C function
returns. -/
def gltf_doc_primitive_indices_accessor (doc : GltfDoc) (primitive_index : Nat) :
    Option (Bool × Int) :=
  if primitive_index ≥ doc.primitives.length then none
  else
    let prim := doc.primitives.getD primitive_index {}
    some (decide (prim.indices_accessor ≥ 0), prim.indices_accessor)

/-- `gltf_doc_primitive_find_attribute` (`src/gltf_primitive.c`): linear scan
over the primitive's attribute range for `(semantic, set_index)`.  The C loop
indexes `doc->prim_attrs` without re-checking pool bounds; out-of-range reads
are modelled by the `getD` default (semantic UNKNOWN), which never matches a
recognised semantic. -/
def gltf_doc_primitive_find_attribute (doc : GltfDoc) (primitive_index : Nat)
    (semantic : Nat) (set_index : Nat) : Option Nat :=
  if primitive_index ≥ doc.primitives.length then none
  else
    let prim := doc.primitives.getD primitive_index {}
    let hits := (List.range prim.attributes_count).filterMap fun i =>
      let attr := doc.prim_attrs.getD (prim.attributes_first + i) {}
      if attr.semantic = semantic ∧ attr.set_index = set_index then
        some attr.accessor_index
      else none
    hits.head?

/-- Bytes backing an accessor's buffer (empty when the data pointer is
NULL). -/
def accessor_buffer_bytes (doc : GltfDoc) (a : GltfAccessor) : List Nat :=
  let bv := doc.buffer_views.getD a.buffer_view.toNat {}
  ((doc.buffers.getD bv.buffer {}).data).getD []

/-- `gltf_read_index_u32_from_accessor` (`src/gltf_primitive.c`): decode one
index element to `u32`. -/
def gltf_read_index_u32_from_accessor (doc : GltfDoc) (indices_accessor : Nat)
    (index_i : Nat) : Except GltfResult Nat :=
  if indices_accessor ≥ doc.accessors.length then .error .errInvalid
  else
    let a := doc.accessors.getD indices_accessor {}
    if a.type ≠ GLTF_ACCESSOR_SCALAR then .error .errParse
    else if a.normalized then .error .errParse
    else if ¬(a.component_type = GLTF_COMP_U8 ∨ a.component_type = GLTF_COMP_U16 ∨
        a.component_type = GLTF_COMP_U32) then .error .errParse
    else if index_i ≥ a.count then .error .errInvalid
    else
      match gltf_accessor_span doc indices_accessor with
      | .error r => .error r
      | .ok span =>
        match span.ptr with
        | none => .error .errParse
        | some base =>
          match gltf_component_size_bytes a.component_type with
          | none => .error .errParse
          | some comp_size =>
            let stride := if span.stride ≠ 0 then span.stride else comp_size
            let p := base + index_i * stride
            let bytes := accessor_buffer_bytes doc a
            if a.component_type = GLTF_COMP_U8 then .ok (bytes.getD p 0 % 256)
            else if a.component_type = GLTF_COMP_U16 then .ok (rd_u16_le bytes p)
            else .ok (rd_u32_le bytes p)

/-- `gltf_tri` (`include/gltf/gltf.h`). -/
structure GltfTri where
  i0 : Nat
  i1 : Nat
  i2 : Nat
  deriving DecidableEq, Repr

/-- Triangle-emission loop of `gltf_doc_primitive_iterate_triangles`
(`src/gltf_primitive.c`), with the caller-supplied callback modelled as a
collector that always continues: the returned list is exactly the sequence of
`(tri, t)` callback invocations. -/
def iterate_triangles_loop (doc : GltfDoc) (has_idx : Bool) (idx_accessor : Nat)
    (v_count : Nat) : Nat → Nat → Except GltfResult (List GltfTri)
  | _, 0 => .ok []
  | t, remaining + 1 =>
    if has_idx then
      match gltf_read_index_u32_from_accessor doc idx_accessor (t * 3 + 0) with
      | .error r => .error r
      | .ok i0 =>
        match gltf_read_index_u32_from_accessor doc idx_accessor (t * 3 + 1) with
        | .error r => .error r
        | .ok i1 =>
          match gltf_read_index_u32_from_accessor doc idx_accessor (t * 3 + 2) with
          | .error r => .error r
          | .ok i2 =>
            if i0 ≥ v_count ∨ i1 ≥ v_count ∨ i2 ≥ v_count then .error .errParse
            else
              match iterate_triangles_loop doc has_idx idx_accessor v_count
                  (t + 1) remaining with
              | .error r => .error r
              | .ok rest => .ok (⟨i0, i1, i2⟩ :: rest)
    else
      match iterate_triangles_loop doc has_idx idx_accessor v_count
          (t + 1) remaining with
      | .error r => .error r
      | .ok rest => .ok (⟨t * 3 + 0, t * 3 + 1, t * 3 + 2⟩ :: rest)

/-- `gltf_doc_primitive_iterate_triangles` (`src/gltf_primitive.c`): performs
every check of the C function in order and, on success, returns the list of
emitted triangles. -/
def gltf_doc_primitive_iterate_triangles (doc : GltfDoc) (primitive_index : Nat) :
    Except GltfResult (List GltfTri) :=
  if primitive_index ≥ doc.primitives.length then .error .errInvalid
  else
    match gltf_doc_primitive_find_attribute doc primitive_index
        GLTF_ATTR_POSITION 0 with
    | none => .error .errParse
    | some pos_accessor =>
      match gltf_doc_accessor_info doc pos_accessor with
      | none => .error .errParse
      | some (v_count, v_comp, v_type, v_norm) =>
        if v_count = 0 then .ok []
        else if v_type ≠ GLTF_ACCESSOR_VEC3 then .error .errParse
        else if v_comp ≠ GLTF_COMP_F32 then .error .errParse
        else if v_norm then .error .errParse
        else
          match gltf_doc_primitive_indices_accessor doc primitive_index with
          | none => .error .errParse
          | some (has_idx, idx_accessor) =>
            let idx_check : Except GltfResult Unit :=
              if has_idx then
                match gltf_doc_accessor_info doc idx_accessor.toNat with
                | none => .error .errParse
                | some (_, i_comp, i_type, i_norm) =>
                  if i_type ≠ GLTF_ACCESSOR_SCALAR then .error .errParse
                  else if i_norm then .error .errParse
                  else if ¬(i_comp = GLTF_COMP_U8 ∨ i_comp = GLTF_COMP_U16 ∨
                      i_comp = GLTF_COMP_U32) then .error .errParse
                  else .ok ()
              else .ok ()
            match idx_check with
            | .error r => .error r
            | .ok () =>
              if (doc.primitives.getD primitive_index {}).mode ≠
                  GLTF_PRIM_TRIANGLES then
                .error .errInvalid
              else
                let i_count :=
                  if has_idx then
                    match gltf_doc_accessor_info doc idx_accessor.toNat with
                    | some (c, _, _, _) => c
                    | none => 0
                  else 0
                let n := if has_idx then i_count else v_count
                if n % 3 ≠ 0 then .error .errParse
                else
                  iterate_triangles_loop doc has_idx idx_accessor.toNat v_count
                    0 (n / 3)

/-! ### JSON model

The yyjson values the parsers inspect.  yyjson tags every number with a
subtype: an unsigned-integer literal (`uintv`), a negative-integer literal
(`sintv`), or a real (`real`); `yyjson_is_uint` accepts only the first,
`yyjson_is_int` the first two, `yyjson_is_num` all three.  Number values are
carried as exact rationals. -/

inductive Json where
  | boolv (b : Bool)
  | uintv (n : Nat)
  | sintv (z : Int)
  | real (q : ℚ)
  | str (s : String)
  | arr (xs : List Json)
  | obj (kvs : List (String × Json))

/-- `yyjson_obj_get`. -/
def Json.get (j : Json) (key : String) : Option Json :=
  match j with
  | .obj kvs => (kvs.find? (fun kv => kv.1 = key)).map (·.2)
  | _ => none

def Json.isUint : Json → Bool
  | .uintv _ => true
  | _ => false

def Json.isInt : Json → Bool
  | .uintv _ => true
  | .sintv _ => true
  | _ => false

def Json.isNum : Json → Bool
  | .uintv _ => true
  | .sintv _ => true
  | .real _ => true
  | _ => false

/-- `yyjson_get_num` as an exact rational. -/
def Json.getNum : Json → ℚ
  | .uintv n => (n : ℚ)
  | .sintv z => (z : ℚ)
  | .real q => q
  | _ => 0

/-- `yyjson_get_uint`. -/
def Json.getUint : Json → Nat
  | .uintv n => n
  | _ => 0

/-- `yyjson_get_int`. -/
def Json.getInt : Json → Int
  | .uintv n => (n : Int)
  | .sintv z => z
  | _ => 0

/-- `gltf_json_get_u32` (`src/gltf_parse.c`): optional `u32` with default. -/
def gltf_json_get_u32 (obj : Json) (key : String) (default_value : Nat) :
    Except GltfResult Nat :=
  match obj.get key with
  | none => .ok default_value
  | some v =>
    if ¬v.isUint then .error .errParse
    else if v.getUint > U32_MAX then .error .errParse
    else .ok v.getUint

/-- `gltf_json_get_u32_req` (`src/gltf_parse.c`). -/
def gltf_json_get_u32_req (obj : Json) (key : String) : Except GltfResult Nat :=
  match obj.get key with
  | none => .error .errParse
  | some v =>
    if ¬v.isUint then .error .errParse
    else if v.getUint > U32_MAX then .error .errParse
    else .ok v.getUint

/-- `gltf_json_get_i32` (`src/gltf_parse.c`). -/
def gltf_json_get_i32 (obj : Json) (key : String) (default_value : Int) :
    Except GltfResult Int :=
  match obj.get key with
  | none => .ok default_value
  | some v =>
    if ¬v.isInt then .error .errParse
    else if v.getInt > 2147483647 ∨ v.getInt < -2147483648 then .error .errParse
    else .ok v.getInt

/-- `gltf_json_get_bool` / `gltf_json_get_bool_u8` (`src/gltf_parse.c`). -/
def gltf_json_get_bool (obj : Json) (key : String) (default_value : Bool) :
    Except GltfResult Bool :=
  match obj.get key with
  | none => .ok default_value
  | some v =>
    match v with
    | .boolv b => .ok b
    | _ => .error .errParse

/-- `gltf_json_get_str_opt_dup_arena` (`src/gltf_parse.c`), with the arena
copy modelled as the string itself (`none` = the invalid sentinel). -/
def gltf_json_get_str_opt (obj : Json) (key : String) :
    Except GltfResult (Option String) :=
  match obj.get key with
  | none => .ok none
  | some v =>
    match v with
    | .str s => .ok (some s)
    | _ => .error .errParse

/-- `gltf_json_get_f32_array_opt_n` (`src/gltf_parse.c`): optional fixed-length
float array with exact-length check; the `(float)` narrowing is modelled as
the identity on the exact rational value. -/
def gltf_json_get_f32_array_opt_n (obj : Json) (key : String)
    (default_value : List ℚ) (n : Nat) : Except GltfResult (List ℚ) :=
  match obj.get key with
  | none => .ok default_value
  | some v =>
    match v with
    | .arr xs =>
      if xs.length ≠ n then .error .errParse
      else if xs.all (·.isNum) then .ok (xs.map (·.getNum))
      else .error .errParse
    | _ => .error .errParse

/-- `gltf_json_get_accessor_type_required` (`src/gltf_parse.c`).  Note the C
helper recognises SCALAR/VEC2/VEC3/VEC4/MAT4 only. -/
def gltf_json_get_accessor_type_required (obj : Json) (key : String) :
    Except GltfResult Nat :=
  match obj.get key with
  | none => .error .errParse
  | some v =>
    match v with
    | .str s =>
      if s = "SCALAR" then .ok GLTF_ACCESSOR_SCALAR
      else if s = "VEC2" then .ok GLTF_ACCESSOR_VEC2
      else if s = "VEC3" then .ok GLTF_ACCESSOR_VEC3
      else if s = "VEC4" then .ok GLTF_ACCESSOR_VEC4
      else if s = "MAT4" then .ok GLTF_ACCESSOR_MAT4
      else .error .errParse
    | _ => .error .errParse

/-- `gltf_json_get_u32_index_array_range_opt` (`src/gltf_parse.c`): appends
the JSON index array to the shared pool and returns the new pool with the
range.  An absent key yields range `(0, 0)`. -/
def gltf_json_get_u32_index_array_range_opt (pool : List Nat) (obj : Json)
    (key : String) : Except GltfResult (List Nat × RangeU32) :=
  match obj.get key with
  | none => .ok (pool, ⟨0, 0⟩)
  | some v =>
    match v with
    | .arr xs =>
      let first := pool.length
      let step := xs.foldlM (fun (acc : List Nat) (it : Json) =>
        if ¬it.isUint then Except.error GltfResult.errParse
        else if it.getUint > U32_MAX then Except.error GltfResult.errParse
        else Except.ok (acc ++ [it.getUint])) pool
      match step with
      | .error r => .error r
      | .ok pool' => .ok (pool', ⟨first, pool'.length - first⟩)
    | _ => .error .errParse

/-- Identity matrix default passed by `gltf_parse_nodes` for `matrix`. -/
def mat4_identity_default : List ℚ :=
  [1, 0, 0, 0, 0, 1, 0, 0, 0, 0, 1, 0, 0, 0, 0, 1]

/-- Per-node body of `gltf_parse_nodes` (`src/gltf_parse.c`, the full modular
parser): name, matrix presence flag, matrix, translation, rotation, scale,
children (into the pool), mesh. -/
def gltf_parse_nodes_entry (pool : List Nat) (node_val : Json) :
    Except GltfResult (List Nat × GltfNode) :=
  match node_val with
  | .obj _ =>
    match gltf_json_get_str_opt node_val "name" with
    | .error r => .error r
    | .ok name =>
      let has_matrix := (node_val.get "matrix").isSome
      match gltf_json_get_f32_array_opt_n node_val "matrix"
          mat4_identity_default 16 with
      | .error r => .error r
      | .ok matrix =>
        match gltf_json_get_f32_array_opt_n node_val "translation" [0, 0, 0] 3 with
        | .error r => .error r
        | .ok translation =>
          match gltf_json_get_f32_array_opt_n node_val "rotation" [0, 0, 0, 1] 4 with
          | .error r => .error r
          | .ok rotation =>
            match gltf_json_get_f32_array_opt_n node_val "scale" [1, 1, 1] 3 with
            | .error r => .error r
            | .ok scale =>
              match gltf_json_get_u32_index_array_range_opt pool node_val
                  "children" with
              | .error r => .error r
              | .ok (pool', children) =>
                match gltf_json_get_i32 node_val "mesh" (-1) with
                | .error r => .error r
                | .ok mesh =>
                  .ok (pool', { name := name, mesh := mesh, children := children,
                                has_matrix := has_matrix, matrix := matrix,
                                translation := translation, rotation := rotation,
                                scale := scale })
  | _ => .error .errParse

/-- `gltf_parse_nodes` (`src/gltf_parse.c`): parses `root.nodes` into the node
array, threading the shared index pool. -/
def gltf_parse_nodes (pool : List Nat) (root : Json) :
    Except GltfResult (List Nat × List GltfNode) :=
  match root.get "nodes" with
  | none => .ok (pool, [])
  | some nodes_val =>
    match nodes_val with
    | .arr xs =>
      xs.foldlM (fun (acc : List Nat × List GltfNode) node_val =>
        match gltf_parse_nodes_entry acc.1 node_val with
        | .error r => .error r
        | .ok (pool', node) => .ok (pool', acc.2 ++ [node])) (pool, [])
    | _ => .error .errParse

/-- Per-node body of the node loop inside `gltf_load_file`
(`src/gltf_doc.c`, lines 184-217): only `name` and `mesh` are parsed; every
other member keeps its `calloc` zero value (children range `(0,0)`, flag
clear, all-zero matrix/translation/rotation/scale). -/
def gltf_load_file_nodes_entry (node_val : Json) :
    Except GltfResult GltfNode :=
  match node_val with
  | .obj _ =>
    match gltf_json_get_str_opt node_val "name" with
    | .error r => .error r
    | .ok name =>
      match gltf_json_get_i32 node_val "mesh" (-1) with
      | .error r => .error r
      | .ok mesh =>
        .ok { name := name, mesh := mesh }
  | _ => .error .errParse

/-- Node loop of `gltf_load_file` (`src/gltf_doc.c`). -/
def gltf_load_file_nodes (root : Json) : Except GltfResult (List GltfNode) :=
  match root.get "nodes" with
  | none => .ok []
  | some nodes_val =>
    match nodes_val with
    | .arr xs =>
      xs.foldlM (fun acc node_val =>
        match gltf_load_file_nodes_entry node_val with
        | .error r => .error r
        | .ok node => .ok (acc ++ [node])) []
    | _ => .error .errParse

/-- Per-accessor body of the accessor loop inside `gltf_load_file`
(`src/gltf_doc.c`, lines 409-473): `bufferView` defaults to `-1`, and
`byteOffset` is read (default 0) only when `bufferView` is absent; when a
`bufferView` is present the JSON `byteOffset` is never read and the stored
offset stays at its `calloc` zero. -/
def gltf_load_file_accessor_entry (accessor_val : Json) :
    Except GltfResult GltfAccessor :=
  match accessor_val with
  | .obj _ =>
    match gltf_json_get_i32 accessor_val "bufferView" (-1) with
    | .error r => .error r
    | .ok buffer_view =>
      let byte_offset_step :=
        if buffer_view < 0 then
          gltf_json_get_u32 accessor_val "byteOffset" 0
        else .ok 0
      match byte_offset_step with
      | .error r => .error r
      | .ok byte_offset =>
        match gltf_json_get_u32_req accessor_val "componentType" with
        | .error r => .error r
        | .ok component_type =>
          match gltf_json_get_u32_req accessor_val "count" with
          | .error r => .error r
          | .ok count =>
            match gltf_json_get_accessor_type_required accessor_val "type" with
            | .error r => .error r
            | .ok type =>
              match gltf_json_get_bool accessor_val "normalized" false with
              | .error r => .error r
              | .ok normalized =>
                .ok { buffer_view := buffer_view, byte_offset := byte_offset,
                      component_type := component_type, count := count,
                      type := type, normalized := normalized }
  | _ => .error .errParse

/-- Per-bufferView body of the bufferView loop inside `gltf_load_file`
(`src/gltf_doc.c`, lines 494-546): `buffer` and `byteOffset` are required,
`byteLength`/`byteStride`/`target` default to 0.  No field is ever checked
against the referenced buffer's length. -/
def gltf_load_file_buffer_view_entry (buffer_view_val : Json) :
    Except GltfResult GltfBufferView :=
  match buffer_view_val with
  | .obj _ =>
    match gltf_json_get_u32_req buffer_view_val "buffer" with
    | .error r => .error r
    | .ok buffer =>
      match gltf_json_get_u32 buffer_view_val "byteLength" 0 with
      | .error r => .error r
      | .ok byte_length =>
        match gltf_json_get_u32_req buffer_view_val "byteOffset" with
        | .error r => .error r
        | .ok byte_offset =>
          match gltf_json_get_u32 buffer_view_val "byteStride" 0 with
          | .error r => .error r
          | .ok byte_stride =>
            match gltf_json_get_u32 buffer_view_val "target" 0 with
            | .error r => .error r
            | .ok target =>
              .ok { buffer := buffer, byte_offset := byte_offset,
                    byte_length := byte_length, byte_stride := byte_stride,
                    target := target }
  | _ => .error .errParse

/-! ### GLB container

The GLB front end is declared in the repository (`gltf_load_context` in
`src/gltf_internal.h`, exercised by `tests/test_07_load_glb.c`) but its
implementation is not among the sources, so it is modelled from the
specification (§4.4). -/

/-- `'glTF'` chunk-magic constant. -/
def GLB_MAGIC : Nat := 0x46546C67

/-- `'JSON'` chunk type. -/
def GLB_CHUNK_JSON : Nat := 0x4E4F534A

/-- `'BIN\0'` chunk type. -/
def GLB_CHUNK_BIN : Nat := 0x004E4942

/-- Little-endian u32 serialisation. -/
def u32le (n : Nat) : List Nat :=
  [n % 256, n / 256 % 256, n / 65536 % 256, n / 16777216 % 256]

/-- One GLB chunk: 8-byte header (length, type) followed by the payload. -/
def glb_chunk (ty : Nat) (payload : List Nat) : List Nat :=
  u32le payload.length ++ u32le ty ++ payload

/-- A GLB container with the given header fields and chunk list. -/
def glb_container_raw (magic version length : Nat)
    (chunks : List (Nat × List Nat)) : List Nat :=
  u32le magic ++ u32le version ++ u32le length ++
    (chunks.map fun c => glb_chunk c.1 c.2).flatten

/-- The canonical GLB container for a JSON payload and optional BIN payload:
JSON chunk first, then the BIN chunk when present. -/
def glb_encode (json : List Nat) (bin : Option (List Nat)) : List Nat :=
  let chunks := [(GLB_CHUNK_JSON, json)] ++
    (match bin with | some b => [(GLB_CHUNK_BIN, b)] | none => [])
  glb_container_raw GLB_MAGIC 2
    (12 + ((chunks.map fun c => glb_chunk c.1 c.2).flatten).length) chunks

/-- Modelled from the spec: chunk iteration of the GLB container parser
(§4.4), which is not among the sources.  Each chunk has an 8-byte header;
the length must be a multiple of 4 and must not overflow the remaining
buffer; the JSON chunk must be the first chunk and unique; at most one BIN
chunk is accepted; other chunk types are ignored. -/
def glb_parse_chunks (fuel : Nat) (rem : List Nat) (json bin : Option (List Nat))
    (is_first : Bool) : Except GltfResult (List Nat × Option (List Nat)) :=
  if rem.length = 0 then
    match json with
    | some j => .ok (j, bin)
    | none => .error .errParse
  else
    match fuel with
    | 0 => .error .errParse
    | fuel + 1 =>
      if rem.length < 8 then .error .errParse
      else
        let len := rd_u32_le rem 0
        let ty := rd_u32_le rem 4
        if len % 4 ≠ 0 then .error .errParse
        else if len > rem.length - 8 then .error .errParse
        else
          let payload := (rem.drop 8).take len
          let rest := rem.drop (8 + len)
          if ty = GLB_CHUNK_JSON then
            if ¬is_first then .error .errParse
            else if json.isSome then .error .errParse
            else glb_parse_chunks fuel rest (some payload) bin false
          else if is_first then .error .errParse
          else if ty = GLB_CHUNK_BIN then
            if bin.isSome then .error .errParse
            else glb_parse_chunks fuel rest json (some payload) false
          else glb_parse_chunks fuel rest json bin false

/-- Modelled from the spec: the GLB container parser (§4.4), which is not
among the sources.  Validates the 12-byte header (magic `'glTF'`, version 2,
declared length equal to the buffer size) and iterates the chunks, returning
the JSON payload and the optional BIN payload.  The chunk loop is fuelled by
the remaining byte count, which it can never exhaust (every iteration
consumes at least the 8-byte chunk header). -/
def glb_parse (bytes : List Nat) :
    Except GltfResult (List Nat × Option (List Nat)) :=
  if bytes.length < 12 then .error .errParse
  else if rd_u32_le bytes 0 ≠ GLB_MAGIC then .error .errParse
  else if rd_u32_le bytes 4 ≠ 2 then .error .errParse
  else if rd_u32_le bytes 8 ≠ bytes.length then .error .errParse
  else glb_parse_chunks bytes.length (bytes.drop 12) none none true

/-- Modelled from the spec: GLB buffer resolution (§4.4), which is not among
the sources — a buffer without a URI takes the BIN chunk to satisfy
`buffers[0]`, and the same construction is rejected when no BIN chunk is
available (plain `.gltf`). -/
def glb_resolve_buffer0 (uri : Option String) (internal_bin : Option (List Nat)) :
    Except GltfResult (List Nat) :=
  match uri with
  | some _ => .error .errUnsupported
  | none =>
    match internal_bin with
    | some b => .ok b
    | none => .error .errParse

/-! ### Base64 decoder (`src/base64.c`) -/

/-- LUT classification results. -/
def B64_INVALID : Nat := 0
def B64_PAD : Nat := 254
def B64_SKIP : Nat := 255

/-- `k_b64_lut` (`src/base64.c`): digit values shifted by one (1..64),
padding, whitespace-skip, or invalid.  The table is indexed with the byte
value of the input character (`c % 256` mirrors the `uint8_t` cast). -/
def b64_lut (c0 : Nat) : Nat :=
  let c := c0 % 256
  if 65 ≤ c ∧ c ≤ 90 then c - 64
  else if 97 ≤ c ∧ c ≤ 122 then c - 70
  else if 48 ≤ c ∧ c ≤ 57 then c + 5
  else if c = 43 then 63
  else if c = 47 then 64
  else if c = 61 then B64_PAD
  else if c = 32 ∨ c = 9 ∨ c = 10 ∨ c = 13 ∨ c = 12 ∨ c = 11 then B64_SKIP
  else B64_INVALID

/-- The loop state of `gltf_base64_decode` (`src/base64.c`): the pending
partial quad (LUT values), the after-padding `finished` flag, and the bytes
written so far. -/
structure B64State where
  quad : List Nat
  finished : Bool
  out : List Nat
  deriving DecidableEq, Repr

/-- One iteration of the decode loop in `gltf_base64_decode` (`src/base64.c`)
for input character `c`; `.error ()` models the `return 0` failure paths.
The C `uint8_t` output casts are the `% 256` (each value already fits). -/
def b64_step (out_cap : Nat) (st : B64State) (c : Nat) : Except Unit B64State :=
  let t := b64_lut c
  if t = B64_SKIP then .ok st
  else if st.finished then .error ()
  else if t = B64_INVALID then .error ()
  else
    let quad' := st.quad ++ [t]
    if quad'.length < 4 then .ok { st with quad := quad' }
    else
      match quad' with
      | [a, b, c2, d] =>
        if a = B64_PAD ∨ b = B64_PAD then .error ()
        else
          let va := a - 1
          let vb := b - 1
          if c2 = B64_PAD then
            if d ≠ B64_PAD then .error ()
            else if st.out.length + 1 > out_cap then .error ()
            else .ok { quad := [], finished := true,
                       out := st.out ++ [(va <<< 2 ||| vb >>> 4) % 256] }
          else if d = B64_PAD then
            let vc := c2 - 1
            if st.out.length + 2 > out_cap then .error ()
            else .ok { quad := [], finished := true,
                       out := st.out ++ [(va <<< 2 ||| vb >>> 4) % 256,
                                         ((vb &&& 15) <<< 4 ||| vc >>> 2) % 256] }
          else
            let vc := c2 - 1
            let vd := d - 1
            if st.out.length + 3 > out_cap then .error ()
            else .ok { quad := [], finished := st.finished,
                       out := st.out ++ [(va <<< 2 ||| vb >>> 4) % 256,
                                         ((vb &&& 15) <<< 4 ||| vc >>> 2) % 256,
                                         ((vc &&& 3) <<< 6 ||| vd) % 256] }
      | _ => .error ()

/-- `gltf_base64_decode` (`src/base64.c`): fold the loop body over the input;
a nonempty trailing quad is an error, otherwise the decoded bytes are
returned.  The NULL-pointer guards on the in/out arguments are dropped. -/
def gltf_base64_decode (input : List Nat) (out_cap : Nat) : Option (List Nat) :=
  match input.foldlM (b64_step out_cap) ⟨[], false, []⟩ with
  | .error () => none
  | .ok st => if st.quad ≠ [] then none else some st.out

/-- Whitespace classification of the decoder's LUT. -/
def b64_is_ws (c : Nat) : Bool := b64_lut c == B64_SKIP

/-- Standard base64 alphabet: digit value (0..63) to ASCII code. -/
def b64_alpha (v : Nat) : Nat :=
  if v < 26 then 65 + v
  else if v < 52 then 97 + (v - 26)
  else if v < 62 then 48 + (v - 52)
  else if v = 62 then 43
  else 47

/-- Standard base64 encoding of a byte sequence (RFC 4648, with `=`
padding). -/
def base64_encode : List Nat → List Nat
  | [] => []
  | [b1] =>
    [b64_alpha (b1 / 4), b64_alpha (b1 % 4 * 16), 61, 61]
  | [b1, b2] =>
    [b64_alpha (b1 / 4), b64_alpha (b1 % 4 * 16 + b2 / 16),
     b64_alpha (b2 % 16 * 4), 61]
  | b1 :: b2 :: b3 :: rest =>
    [b64_alpha (b1 / 4), b64_alpha (b1 % 4 * 16 + b2 / 16),
     b64_alpha (b2 % 16 * 4 + b3 / 64), b64_alpha (b3 % 64)] ++
      base64_encode rest

/-! ### Matrix math (`src/gltf_math.h`)

Matrices are 16-entry column-major lists (`m[col*4 + row]`); `float`
arithmetic is modelled exactly over `ℚ`. -/

/-- Entry access `m[i]`. -/
def m4 (m : List ℚ) (i : Nat) : ℚ := m.getD i 0

/-- `mat4_identity`. -/
def mat4_identity : List ℚ :=
  [1, 0, 0, 0, 0, 1, 0, 0, 0, 0, 1, 0, 0, 0, 0, 1]

/-- `mat4_mul`: `out[c*4+row] = Σ_k a[k*4+row] * b[c*4+k]`. -/
def mat4_mul (a b : List ℚ) : List ℚ :=
  (List.range 16).map fun i =>
    let c := i / 4
    let row := i % 4
    m4 a (0 * 4 + row) * m4 b (c * 4 + 0) +
    m4 a (1 * 4 + row) * m4 b (c * 4 + 1) +
    m4 a (2 * 4 + row) * m4 b (c * 4 + 2) +
    m4 a (3 * 4 + row) * m4 b (c * 4 + 3)

/-- `mat4_from_quat`: rotation matrix from quaternion `(x, y, z, w)`. -/
def mat4_from_quat (q : List ℚ) : List ℚ :=
  let x := q.getD 0 0
  let y := q.getD 1 0
  let z := q.getD 2 0
  let w := q.getD 3 0
  [1 - 2 * (y * y + z * z), 2 * (x * y + w * z), 2 * (x * z - w * y), 0,
   2 * (x * y - w * z), 1 - 2 * (x * x + z * z), 2 * (y * z + w * x), 0,
   2 * (x * z + w * y), 2 * (y * z - w * x), 1 - 2 * (x * x + y * y), 0,
   0, 0, 0, 1]

/-- `mat4_apply_scale`: scales basis columns 0..2 in place. -/
def mat4_apply_scale (m s : List ℚ) : List ℚ :=
  let get := fun i => m.getD i 0
  let sc := fun i => s.getD i 0
  [get 0 * sc 0, get 1 * sc 0, get 2 * sc 0, get 3,
   get 4 * sc 1, get 5 * sc 1, get 6 * sc 1, get 7,
   get 8 * sc 2, get 9 * sc 2, get 10 * sc 2, get 11,
   get 12, get 13, get 14, get 15]

/-- `mat4_apply_translation`: writes `m[12..14]`. -/
def mat4_apply_translation (m t : List ℚ) : List ℚ :=
  (m.take 12) ++ [t.getD 0 0, t.getD 1 0, t.getD 2 0] ++ [m.getD 15 0]

/-- `gltf_node_local_matrix` (`src/gltf_world.c`): explicit matrix verbatim
when flagged, otherwise `T * R * S` built as rotation, scaled basis,
translation column.  `none` models the `return 0` bounds failure. -/
def gltf_node_local_matrix (doc : GltfDoc) (node_index : Nat) :
    Option (List ℚ) :=
  if node_index ≥ doc.nodes.length then none
  else
    let n := doc.nodes.getD node_index {}
    if n.has_matrix then some n.matrix
    else some (mat4_apply_translation
      (mat4_apply_scale (mat4_from_quat n.rotation) n.scale) n.translation)

/-- Total local matrix for an in-bounds node (used to state invariants). -/
def local_matrix (doc : GltfDoc) (node_index : Nat) : List ℚ :=
  (gltf_node_local_matrix doc node_index).getD []

/-! ### Scene-graph evaluation (`src/gltf_world.c`) -/

/-- DFS states. -/
def DFS_UNVISITED : Nat := 0
def DFS_VISITING : Nat := 1
def DFS_DONE : Nat := 2

/-- `gltf_world_cache` (`src/gltf_internal.h`): per-node state byte and world
matrix, modelled as total maps (the C arrays are `node_count` long; reads are
always guarded by `node_count` checks). -/
structure WorldCache where
  node_count : Nat
  world : Nat → List ℚ
  state : Nat → Nat
  scene_index : Nat
  valid : Bool

/-- Pointwise map update. -/
def updFn {α : Type} (f : Nat → α) (i : Nat) (v : α) : Nat → α :=
  fun j => if j = i then v else f j

/-- `gltf_dfs_frame` (`src/gltf_world.c`); the `UINT32_MAX` root-parent
sentinel is modelled as `none`. -/
structure DfsFrame where
  node : Nat
  parent : Option Nat
  child_i : Nat
  deriving DecidableEq, Repr

/-- Step outcomes.  `stackOverflowUB` marks the heap-buffer overflow the C
code commits when `stack_push` writes past the `node_count`-capacity stack
array (undefined behavior, not a returned error). -/
inductive StepErr where
  | outOfFuel
  | stackOverflowUB
  | res (r : GltfResult)
  deriving DecidableEq, Repr

/-- Children range of a node. -/
def node_children (doc : GltfDoc) (n : Nat) : RangeU32 :=
  (doc.nodes.getD n {}).children

/-- `cr.first > doc->indices_count || cr.count > doc->indices_count - cr.first`
bounds check from `dfs_step`, in positive form. -/
def children_range_ok (doc : GltfDoc) (n : Nat) : Prop :=
  (node_children doc n).first ≤ doc.indices_u32.length ∧
    (node_children doc n).count ≤ doc.indices_u32.length - (node_children doc n).first

instance (doc : GltfDoc) (n : Nat) : Decidable (children_range_ok doc n) := by
  unfold children_range_ok; infer_instance

/-- The `j`-th child index of node `n` (pool read). -/
def child_at (doc : GltfDoc) (n j : Nat) : Nat :=
  doc.indices_u32.getD ((node_children doc n).first + j) 0

/-- All child indices of node `n`. -/
def child_list (doc : GltfDoc) (n : Nat) : List Nat :=
  (List.range (node_children doc n).count).map (child_at doc n)

/-- `eval_one_node` (`src/gltf_world.c`): compute
`world = parent_world * local(node)`, moving UNVISITED to VISITING.  The
VISITING branch returns `GLTF_ERR_INVALID` ("cycle in node graph"). -/
def eval_one_node (doc : GltfDoc) (cache : WorldCache) (node : Nat)
    (parent_world : List ℚ) : Except StepErr WorldCache :=
  if node ≥ doc.nodes.length then .error (.res .errInvalid)
  else if cache.state node = DFS_DONE then .ok cache
  else if cache.state node = DFS_VISITING then .error (.res .errInvalid)
  else
    let cache1 := { cache with state := updFn cache.state node DFS_VISITING }
    match gltf_node_local_matrix doc node with
    | none => .error (.res .errInvalid)
    | some lm =>
      .ok { cache1 with world := updFn cache1.world node (mat4_mul parent_world lm) }

/-- `dfs_step` (`src/gltf_world.c`): one iterative DFS step on the explicit
stack (head = top).  `eval_one_node` is invoked only when the top node's state
is UNVISITED; otherwise the step descends into the next child or pops,
marking DONE.  `stack_push` into a full `node_count`-capacity array is the
`stackOverflowUB` outcome. -/
def dfs_step (doc : GltfDoc) (cache : WorldCache) (stack : List DfsFrame) :
    Except StepErr (WorldCache × List DfsFrame) :=
  match stack with
  | [] => .error (.res .errInvalid)
  | f :: rest =>
    if cache.state f.node = DFS_UNVISITED then
      let parent_world :=
        match f.parent with
        | none => mat4_identity
        | some p => cache.world p
      match eval_one_node doc cache f.node parent_world with
      | .error e => .error e
      | .ok cache' => .ok (cache', f :: rest)
    else
      if ¬children_range_ok doc f.node then .error (.res .errInvalid)
      else
        let cr := node_children doc f.node
        if f.child_i < cr.count then
          let child := child_at doc f.node f.child_i
          let f' := { f with child_i := f.child_i + 1 }
          if child ≥ doc.nodes.length then .error (.res .errInvalid)
          else if (f' :: rest).length ≥ doc.nodes.length then .error .stackOverflowUB
          else .ok (cache, ⟨child, some f.node, 0⟩ :: f' :: rest)
        else
          .ok ({ cache with state := updFn cache.state f.node DFS_DONE }, rest)

/-- The `while (top > 0)` loop in `gltf_compute_world_matrices`, fuelled. -/
def dfs_run (doc : GltfDoc) : Nat → WorldCache → List DfsFrame →
    Except StepErr WorldCache
  | 0, cache, stack =>
    match stack with
    | [] => .ok cache
    | _ => .error .outOfFuel
  | fuel + 1, cache, stack =>
    match stack with
    | [] => .ok cache
    | _ =>
      match dfs_step doc cache stack with
      | .error e => .error e
      | .ok (cache', stack') => dfs_run doc fuel cache' stack'

/-- Root-node positions of a scene (reads of `doc->indices_u32` at
`scene.nodes.first + i`). -/
def scene_root_list (doc : GltfDoc) (scene : GltfScene) : List Nat :=
  (List.range scene.nodes.count).map fun i =>
    doc.indices_u32.getD (scene.nodes.first + i) 0

/-- The per-root loop in `gltf_compute_world_matrices`: for each root index,
skip it when already DONE, else push a parentless frame and run the DFS. -/
def compute_roots_go (doc : GltfDoc) (fuel : Nat) :
    List Nat → WorldCache → Except StepErr WorldCache
  | [], cache => .ok cache
  | root :: more, cache =>
    if root ≥ doc.nodes.length then .error (.res .errInvalid)
    else if cache.state root = DFS_DONE then compute_roots_go doc fuel more cache
    else
      match dfs_run doc fuel cache [⟨root, none, 0⟩] with
      | .error e => .error e
      | .ok cache' => compute_roots_go doc fuel more cache'

/-- `gltf_compute_world_matrices` (`src/gltf_world.c`): validates the cache
and scene, resets all state bytes, walks each scene root with the iterative
DFS, and marks the cache valid on success. -/
def gltf_compute_world_matrices (doc : GltfDoc) (scene_index : Nat)
    (cache : WorldCache) (fuel : Nat) : Except StepErr WorldCache :=
  if cache.node_count ≠ doc.nodes.length then .error (.res .errInvalid)
  else if scene_index ≥ doc.scenes.length then .error (.res .errInvalid)
  else
    let cache1 := { cache with
                    valid := false
                    scene_index := scene_index
                    state := fun _ => DFS_UNVISITED }
    let scene := doc.scenes.getD scene_index {}
    if scene.nodes.count = 0 then .ok { cache1 with valid := true }
    else if scene.nodes.first > doc.indices_u32.length ∨
        scene.nodes.count > doc.indices_u32.length - scene.nodes.first then
      .error (.res .errInvalid)
    else
      match compute_roots_go doc fuel (scene_root_list doc scene) cache1 with
      | .error e => .error e
      | .ok cache' => .ok { cache' with valid := true }

/-- `gltf_world_matrix` (`src/gltf_world.c`): returns the cached world matrix
(`some`) only when the cache matches the document, is valid, and the node is
DONE; otherwise returns 0 (`none`). -/
def gltf_world_matrix (doc : GltfDoc) (cache : WorldCache) (node_index : Nat) :
    Option (List ℚ) :=
  if node_index ≥ doc.nodes.length then none
  else if cache.node_count ≠ doc.nodes.length then none
  else if ¬cache.valid then none
  else if cache.state node_index ≠ DFS_DONE then none
  else some (cache.world node_index)

/-- Reachability from a root set along `children` edges (the node set the
specification's scene-graph claims quantify over). -/
inductive Reaches (doc : GltfDoc) (roots : List Nat) : Nat → Prop where
  | root {n : Nat} : n ∈ roots → Reaches doc roots n
  | child {p c : Nat} : Reaches doc roots p → c ∈ child_list doc p →
      Reaches doc roots c

/-! ### Concrete fixtures used by the theorems -/

/-- A loadable 4-vertex non-indexed TRIANGLE_STRIP primitive (the §8 scenario
3 fixture): POSITION is VEC3/F32 with count 4. -/
def strip_doc : GltfDoc :=
  { primitives := [{ attributes_first := 0, attributes_count := 1,
                     indices_accessor := -1, mode := GLTF_PRIM_TRIANGLE_STRIP }]
    prim_attrs := [{ semantic := GLTF_ATTR_POSITION, set_index := 0,
                     accessor_index := 0 }]
    buffers := [{ byte_length := 48, data := some (List.replicate 48 0) }]
    buffer_views := [{ buffer := 0, byte_offset := 0, byte_length := 48,
                       byte_stride := 0 }]
    accessors := [{ buffer_view := 0, byte_offset := 0,
                    component_type := GLTF_COMP_F32, count := 4,
                    type := GLTF_ACCESSOR_VEC3 }] }

/-- The same fixture with `mode = TRIANGLE_FAN` (§8 scenario 4). -/
def fan_doc : GltfDoc :=
  { strip_doc with
    primitives := [{ attributes_first := 0, attributes_count := 1,
                     indices_accessor := -1, mode := GLTF_PRIM_TRIANGLE_FAN }] }

/-- `root.nodes` JSON carrying an explicit matrix, a child reference, and a
translation on node 0, with node 1 left empty. -/
def c2_nodes_root : Json := .obj [("nodes", .arr
  [.obj [("matrix", .arr
            [.uintv 2, .uintv 0, .uintv 0, .uintv 0,
             .uintv 0, .uintv 3, .uintv 0, .uintv 0,
             .uintv 0, .uintv 0, .uintv 4, .uintv 0,
             .uintv 5, .uintv 6, .uintv 7, .uintv 1]),
         ("children", .arr [.uintv 1]),
         ("translation", .arr [.uintv 0, .uintv 0, .sintv (-3)])],
   .obj []])]

/-- Accessor JSON with `byteOffset` present and `bufferView` absent. -/
def c5_accessor_no_view : Json := .obj
  [("byteOffset", .uintv 4), ("componentType", .uintv 5126),
   ("count", .uintv 1), ("type", .str "SCALAR")]

/-- Accessor JSON with both `bufferView` and `byteOffset` present. -/
def c5_accessor_with_view : Json := .obj
  [("bufferView", .uintv 0), ("byteOffset", .uintv 4),
   ("componentType", .uintv 5126), ("count", .uintv 1), ("type", .str "SCALAR")]

/-- One-node document whose node 0 lists itself as a child; scene 0's root
list is `[0]`. -/
def cyclic_doc : GltfDoc :=
  { scenes := [{ nodes := ⟨0, 1⟩ }]
    nodes := [{ children := ⟨1, 1⟩, rotation := [0, 0, 0, 1],
                scale := [1, 1, 1] }]
    indices_u32 := [0, 0] }

/-- A fresh world cache for `n` nodes (uninitialised world storage modelled
as empty matrices, states cleared as `gltf_world_cache_create` does). -/
def fresh_cache (n : Nat) : WorldCache :=
  { node_count := n, world := fun _ => [], state := fun _ => 0,
    scene_index := 0, valid := false }

/-- Two-node parent/child scene plus one unreachable node, with TRS
translations (§8 scenario 5 shape). -/
def chain_doc : GltfDoc :=
  { scenes := [{ nodes := ⟨0, 1⟩ }]
    nodes := [{ children := ⟨1, 1⟩, translation := [1, 0, 0],
                rotation := [0, 0, 0, 1], scale := [1, 1, 1] },
              { translation := [0, 2, 0], rotation := [0, 0, 0, 1],
                scale := [1, 1, 1] },
              { translation := [5, 5, 5], rotation := [0, 0, 0, 1],
                scale := [1, 1, 1] }]
    indices_u32 := [0, 1] }

/-- The scenario-1 document: one buffer of 44 bytes, a VEC3/F32 position
accessor (count 3) on view 0 and a SCALAR/U16 index accessor (count 3) on
view 1. -/
def scenario1_doc : GltfDoc :=
  { primitives := [{ attributes_first := 0, attributes_count := 1,
                     indices_accessor := 1, mode := GLTF_PRIM_TRIANGLES }]
    prim_attrs := [{ semantic := GLTF_ATTR_POSITION, set_index := 0,
                     accessor_index := 0 }]
    buffers := [{ byte_length := 44,
                  data := some (List.replicate 36 0 ++ [0, 0, 1, 0, 2, 0, 0, 0]) }]
    buffer_views := [{ buffer := 0, byte_offset := 0, byte_length := 36 },
                     { buffer := 0, byte_offset := 36, byte_length := 6 }]
    accessors := [{ buffer_view := 0, byte_offset := 0,
                    component_type := GLTF_COMP_F32, count := 3,
                    type := GLTF_ACCESSOR_VEC3 },
                  { buffer_view := 1, byte_offset := 0,
                    component_type := GLTF_COMP_U16, count := 3,
                    type := GLTF_ACCESSOR_SCALAR }] }

/-- A document whose only bufferView lies entirely beyond the loaded buffer
data: buffer holds 4 bytes but the view starts at offset 100 with length
16. -/
def overflow_doc : GltfDoc :=
  { buffers := [{ byte_length := 4, data := some [1, 2, 3, 4] }]
    buffer_views := [{ buffer := 0, byte_offset := 100, byte_length := 16,
                       byte_stride := 0 }]
    accessors := [{ buffer_view := 0, byte_offset := 0,
                    component_type := GLTF_COMP_F32, count := 4,
                    type := GLTF_ACCESSOR_SCALAR }] }

/-- The bufferView JSON producing `overflow_doc`'s view. -/
def overflow_view_json : Json := .obj
  [("buffer", .uintv 0), ("byteOffset", .uintv 100), ("byteLength", .uintv 16)]

/-! ### DFS invariant (used to verify `gltf_compute_world_matrices`) -/

/-- World-matrix correctness of a visited node `n`: its cached world matrix
is `parent_world * local` for some already-visited parent whose child list
contains `n`, or `identity * local` when `n` is a scene root. -/
def WorldSpec (doc : GltfDoc) (roots : List Nat) (c : WorldCache) (n : Nat) :
    Prop :=
  (∃ p, p < doc.nodes.length ∧ c.state p ≠ DFS_UNVISITED ∧
     n ∈ child_list doc p ∧
     c.world n = mat4_mul (c.world p) (local_matrix doc n)) ∨
  (n ∈ roots ∧ c.world n = mat4_mul mat4_identity (local_matrix doc n))

/-- Well-formedness of one stack frame. -/
def FrameOk (doc : GltfDoc) (roots : List Nat) (c : WorldCache)
    (f : DfsFrame) : Prop :=
  f.node < doc.nodes.length ∧ Reaches doc roots f.node ∧
  f.child_i ≤ (node_children doc f.node).count ∧
  (f.child_i ≠ 0 → children_range_ok doc f.node) ∧
  (match f.parent with
   | none => f.node ∈ roots
   | some p => p < doc.nodes.length ∧ c.state p ≠ DFS_UNVISITED ∧
       f.node ∈ child_list doc p)

/-- The top frame's already-enumerated children are DONE and in bounds. -/
def TopOk (doc : GltfDoc) (c : WorldCache) (f : DfsFrame) : Prop :=
  ∀ j < f.child_i, child_at doc f.node j < doc.nodes.length ∧
    c.state (child_at doc f.node j) = DFS_DONE

/-- A frame `f` directly below a frame for node `gnode`: `gnode` is the child
`f` is currently descending into, and every earlier child of `f` is DONE. -/
def AboveOk (doc : GltfDoc) (c : WorldCache) (gnode : Nat) (f : DfsFrame) :
    Prop :=
  1 ≤ f.child_i ∧ child_at doc f.node (f.child_i - 1) = gnode ∧
  ∀ j < f.child_i - 1, child_at doc f.node j < doc.nodes.length ∧
    c.state (child_at doc f.node j) = DFS_DONE

/-- The chain condition for the frames below a frame for node `gnode`. -/
def ChainBelow (doc : GltfDoc) (c : WorldCache) : Nat → List DfsFrame → Prop
  | _, [] => True
  | gnode, f :: rest => AboveOk doc c gnode f ∧ ChainBelow doc c f.node rest

/-- The chain condition for the whole stack (head = top). -/
def StackChain (doc : GltfDoc) (c : WorldCache) : List DfsFrame → Prop
  | [] => True
  | t :: rest => TopOk doc c t ∧ ChainBelow doc c t.node rest

/-- The DFS loop invariant of `gltf_compute_world_matrices`. -/
structure DfsInv (doc : GltfDoc) (roots : List Nat) (c : WorldCache)
    (st : List DfsFrame) : Prop where
  state_le : ∀ n, c.state n ≤ 2
  bounded : ∀ n, c.state n ≠ DFS_UNVISITED → n < doc.nodes.length
  reach : ∀ n, c.state n ≠ DFS_UNVISITED → Reaches doc roots n
  world_ok : ∀ n, c.state n ≠ DFS_UNVISITED → WorldSpec doc roots c n
  vis_stack : ∀ n, c.state n = DFS_VISITING → ∃ f ∈ st, f.node = n
  done_closed : ∀ n, c.state n = DFS_DONE → children_range_ok doc n ∧
    ∀ ch ∈ child_list doc n, ch < doc.nodes.length ∧ c.state ch = DFS_DONE
  frames : ∀ f ∈ st, FrameOk doc roots c f
  chain : StackChain doc c st

/-- The cache produced by running `gltf_compute_world_matrices` on
`chain_doc` (used to witness the C7 theorem on a concrete input). -/
def c7w_cache : WorldCache :=
  match gltf_compute_world_matrices chain_doc 0 (fresh_cache 3) 9 with
  | .ok c => c
  | .error _ => fresh_cache 3

end Gltf

deriving instance DecidableEq for Except

namespace Gltf

/-! ### Theorems -/

/-- C1.  The claim says `gltf_doc_primitive_iterate_triangles` succeeds on
TRIANGLE_STRIP and TRIANGLE_FAN primitives (a 4-vertex strip yielding
`(0,1,2)` then `(1,0,3)`).  The implementation rejects every mode other than
TRIANGLES with `GLTF_ERR_INVALID` ("only TRIANGLES primitive mode is
supported"), contradicting the public header's documented mode support and
`tests/test_03_primitives.c`; on the valid 4-vertex strip and fan fixtures it
returns `GLTF_ERR_INVALID` instead of the two prescribed triangles, while the
TRIANGLES topology of scenario 1 does emit `(3t, 3t+1, 3t+2)`. -/
theorem iterate_triangles_rejects_strip_and_fan :
    gltf_doc_primitive_iterate_triangles strip_doc 0 = .error .errInvalid ∧
    gltf_doc_primitive_iterate_triangles fan_doc 0 = .error .errInvalid ∧
    gltf_doc_primitive_iterate_triangles scenario1_doc 0 =
      .ok [⟨0, 1, 2⟩] := by
  refine ⟨rfl, rfl, rfl⟩

/-- C2.  The claim says nodes stored by `gltf_load_file` reflect the JSON
transform and hierarchy (matrix flag, TRS defaults, children range).  The
node loop of `gltf_load_file` in `src/gltf_doc.c` parses only `name` and
`mesh`: on a node carrying `matrix`, `children` and `translation`, the stored
node keeps its zeroed members (flag clear, children empty, translation
`(0,0,0)`, rotation `(0,0,0,0)` rather than the default `(0,0,0,1)`, scale
`(0,0,0)` rather than `(1,1,1)`), contradicting `tests/test_04_*`.  The
repository's full node parser `gltf_parse_nodes` (`src/gltf_parse.c`), which
`gltf_load_file` fails to invoke, stores exactly what the claim describes. -/
theorem load_file_nodes_drop_transform_and_children :
    gltf_load_file_nodes c2_nodes_root = .ok
      [{ name := none, mesh := -1, children := ⟨0, 0⟩, has_matrix := false,
         matrix := [0, 0, 0, 0, 0, 0, 0, 0, 0, 0, 0, 0, 0, 0, 0, 0],
         translation := [0, 0, 0], rotation := [0, 0, 0, 0],
         scale := [0, 0, 0] },
       { name := none, mesh := -1 }] ∧
    gltf_parse_nodes [] c2_nodes_root = .ok ([1],
      [{ name := none, mesh := -1, children := ⟨0, 1⟩, has_matrix := true,
         matrix := [2, 0, 0, 0, 0, 3, 0, 0, 0, 0, 4, 0, 5, 6, 7, 1],
         translation := [0, 0, -3], rotation := [0, 0, 0, 1],
         scale := [1, 1, 1] },
       { name := none, mesh := -1, children := ⟨0, 0⟩, has_matrix := false,
         matrix := [1, 0, 0, 0, 0, 1, 0, 0, 0, 0, 1, 0, 0, 0, 0, 1],
         translation := [0, 0, 0], rotation := [0, 0, 0, 1],
         scale := [1, 1, 1] }]) := by
  refine ⟨rfl, rfl⟩

/-- C5.  The claim says the loader rejects an accessor whose `byteOffset` is
present while `bufferView` is undefined, and stores the JSON `byteOffset`
when `bufferView` is present.  The accessor loop of `gltf_load_file`
(`src/gltf_doc.c`) does the opposite on both counts: with `bufferView`
absent it accepts the accessor and stores `byteOffset = 4`, and with
`bufferView` present it never reads the JSON `byteOffset`, storing 0.  The
stored viewless accessor is only rejected later, by `gltf_accessor_span`,
with `GLTF_ERR_PARSE`. -/
theorem load_file_accessor_byte_offset_mishandled :
    gltf_load_file_accessor_entry c5_accessor_no_view = .ok
      { buffer_view := -1, byte_offset := 4, component_type := 5126,
        count := 1, type := GLTF_ACCESSOR_SCALAR, normalized := false } ∧
    gltf_load_file_accessor_entry c5_accessor_with_view = .ok
      { buffer_view := 0, byte_offset := 0, component_type := 5126,
        count := 1, type := GLTF_ACCESSOR_SCALAR, normalized := false } ∧
    gltf_accessor_span
      { accessors := [{ buffer_view := -1, byte_offset := 4,
                        component_type := 5126, count := 1,
                        type := GLTF_ACCESSOR_SCALAR }] } 0 =
      .error .errParse := by
  refine ⟨rfl, rfl, rfl⟩

/-- C6.  The claim says that meeting a VISITING node during descent makes the
computation fail with PARSE.  In the code, `dfs_step` calls `eval_one_node`
only when the top node's state is UNVISITED, so the VISITING guard is
unreachable from the driver: on the one-node self-cycle document the DFS
re-pushes the node until `stack_push` writes past the `node_count`-capacity
stack array (undefined behavior), and even the guard itself, called directly
on a VISITING node, returns `GLTF_ERR_INVALID`, not PARSE. -/
theorem compute_world_matrices_cycle_overflows :
    gltf_compute_world_matrices cyclic_doc 0 (fresh_cache 1) 50 =
      .error .stackOverflowUB ∧
    eval_one_node cyclic_doc
      { fresh_cache 1 with state := fun _ => DFS_VISITING } 0 mat4_identity =
      .error (.res .errInvalid) := by
  refine ⟨rfl, rfl⟩

/-- C3 helper lemmas: byte-level facts about `u32le`, chunk framing, and the
stepwise behavior of the modelled chunk parser. -/
theorem glb_chunk_length (ty : Nat) (p : List Nat) :
    (glb_chunk ty p).length = 8 + p.length := by
  simp [glb_chunk, u32le]; omega

theorem glb_parse_chunks_nil (fuel : Nat) (j : List Nat) (bin : Option (List Nat))
    (fst : Bool) : glb_parse_chunks fuel [] (some j) bin fst = .ok (j, bin) := by
  rw [glb_parse_chunks.eq_def]
  simp

theorem rd_u32_le_u32le (n : Nat) (hn : n < 4294967296) (rest : List Nat) :
    rd_u32_le (u32le n ++ rest) 0 = n := by
  simp only [u32le, rd_u32_le, List.cons_append, List.nil_append,
    List.getD_cons_zero, List.getD_cons_succ]
  omega

theorem rd_u32_le_shift (m : Nat) (rest : List Nat) (k : Nat) :
    rd_u32_le (u32le m ++ rest) (4 + k) = rd_u32_le rest k := by
  simp only [u32le, rd_u32_le, List.cons_append, List.nil_append]
  simp only [show 4 + k = k + 1 + 1 + 1 + 1 from by omega,
    show 4 + k + 1 = k + 1 + 1 + 1 + 1 + 1 from by omega,
    show 4 + k + 2 = k + 2 + 1 + 1 + 1 + 1 from by omega,
    show 4 + k + 3 = k + 3 + 1 + 1 + 1 + 1 from by omega,
    List.getD_cons_succ]

theorem glb_parse_chunks_step (f ty : Nat) (payload more : List Nat)
    (json bin : Option (List Nat)) (fst : Bool)
    (hlen : payload.length < 4294967296) (hty : ty < 4294967296) :
    glb_parse_chunks (f + 1) (glb_chunk ty payload ++ more) json bin fst =
    (if payload.length % 4 ≠ 0 then .error .errParse
     else if ty = GLB_CHUNK_JSON then
       if ¬fst then .error .errParse
       else if json.isSome then .error .errParse
       else glb_parse_chunks f more (some payload) bin false
     else if fst then .error .errParse
     else if ty = GLB_CHUNK_BIN then
       if bin.isSome then .error .errParse
       else glb_parse_chunks f more json (some payload) false
     else glb_parse_chunks f more json bin false) := by
  have hclen : (glb_chunk ty payload ++ more).length = 8 + payload.length + more.length := by
    simp [glb_chunk_length]
  have hrd0 : rd_u32_le (glb_chunk ty payload ++ more) 0 = payload.length := by
    rw [glb_chunk, List.append_assoc, List.append_assoc]
    exact rd_u32_le_u32le _ hlen _
  have hrd4 : rd_u32_le (glb_chunk ty payload ++ more) 4 = ty := by
    rw [glb_chunk, List.append_assoc, List.append_assoc,
      show (4 : Nat) = 4 + 0 from rfl, rd_u32_le_shift]
    exact rd_u32_le_u32le _ hty _
  have hdrop8 : (glb_chunk ty payload ++ more).drop 8 = payload ++ more := by
    simp [glb_chunk, u32le]
  have hdroplen : (glb_chunk ty payload ++ more).drop (8 + payload.length) = more := by
    have h1 : (8 : Nat) + payload.length = (glb_chunk ty payload).length := by
      rw [glb_chunk_length]
    rw [h1, List.drop_left]
  conv_lhs => rw [glb_parse_chunks.eq_def]
  rw [if_neg (show ¬((glb_chunk ty payload ++ more).length = 0) by omega)]
  rw [hrd0, hrd4, hdrop8]
  dsimp only
  rw [if_neg (show ¬((glb_chunk ty payload ++ more).length < 8) by omega)]
  rw [hdroplen]
  rw [if_neg (show ¬(payload.length > (glb_chunk ty payload ++ more).length - 8) by omega)]
  rw [List.take_left]

theorem glb_parse_container (chunks : List (Nat × List Nat))
    (hlen : 12 + ((chunks.map fun c => glb_chunk c.1 c.2).flatten).length < 4294967296) :
    glb_parse (glb_container_raw GLB_MAGIC 2
        (12 + ((chunks.map fun c => glb_chunk c.1 c.2).flatten).length) chunks) =
      glb_parse_chunks
        (12 + ((chunks.map fun c => glb_chunk c.1 c.2).flatten).length)
        ((chunks.map fun c => glb_chunk c.1 c.2).flatten) none none true := by
  set cb := (chunks.map fun c => glb_chunk c.1 c.2).flatten with hcb
  have hshape : glb_container_raw GLB_MAGIC 2 (12 + cb.length) chunks =
      u32le GLB_MAGIC ++ (u32le 2 ++ (u32le (12 + cb.length) ++ cb)) := by
    simp [glb_container_raw, List.append_assoc]
  have hblen : (u32le GLB_MAGIC ++ (u32le 2 ++ (u32le (12 + cb.length) ++ cb))).length
      = 12 + cb.length := by
    simp [u32le]; omega
  rw [glb_parse, hshape]
  rw [if_neg (by rw [hblen]; omega)]
  rw [rd_u32_le_u32le GLB_MAGIC (by decide) _]
  rw [show (4 : Nat) = 4 + 0 from rfl, rd_u32_le_shift,
    rd_u32_le_u32le 2 (by decide) _]
  rw [show (8 : Nat) = 4 + (4 + 0) from rfl, rd_u32_le_shift, rd_u32_le_shift,
    rd_u32_le_u32le (12 + cb.length) hlen _]
  rw [hblen]
  rw [if_neg (by simp), if_neg (by simp), if_neg (by simp)]
  congr 1

theorem glb_roundtrip_none (json : List Nat) (h4 : json.length % 4 = 0)
    (hfit : 20 + json.length < 4294967296) :
    glb_parse (glb_encode json none) = .ok (json, none) := by
  have henc : glb_encode json none = glb_container_raw GLB_MAGIC 2
      (12 + (([(GLB_CHUNK_JSON, json)].map fun c => glb_chunk c.1 c.2).flatten).length)
      [(GLB_CHUNK_JSON, json)] := rfl
  rw [henc, glb_parse_container _ (by simp [glb_chunk_length]; omega)]
  have hflat : ([(GLB_CHUNK_JSON, json)].map fun c => glb_chunk c.1 c.2).flatten
      = glb_chunk GLB_CHUNK_JSON json ++ [] := by simp
  rw [hflat]
  have hfuel : 12 + (glb_chunk GLB_CHUNK_JSON json ++ []).length =
      (11 + (glb_chunk GLB_CHUNK_JSON json ++ []).length) + 1 := by omega
  rw [hfuel, glb_parse_chunks_step _ _ _ _ _ _ _ (by omega) (by decide)]
  rw [if_neg (by omega), if_pos rfl, if_neg (by simp), if_neg (by simp)]
  exact glb_parse_chunks_nil _ _ _ _

theorem glb_roundtrip_some (json b : List Nat) (h4 : json.length % 4 = 0)
    (hb4 : b.length % 4 = 0) (hfit : 28 + json.length + b.length < 4294967296) :
    glb_parse (glb_encode json (some b)) = .ok (json, some b) := by
  have henc : glb_encode json (some b) = glb_container_raw GLB_MAGIC 2
      (12 + (([(GLB_CHUNK_JSON, json), (GLB_CHUNK_BIN, b)].map
          fun c => glb_chunk c.1 c.2).flatten).length)
      [(GLB_CHUNK_JSON, json), (GLB_CHUNK_BIN, b)] := rfl
  rw [henc, glb_parse_container _ (by simp [glb_chunk_length]; omega)]
  have hflat : ([(GLB_CHUNK_JSON, json), (GLB_CHUNK_BIN, b)].map
      fun c => glb_chunk c.1 c.2).flatten
      = glb_chunk GLB_CHUNK_JSON json ++ (glb_chunk GLB_CHUNK_BIN b ++ []) := by simp
  rw [hflat]
  have hfuel : 12 + (glb_chunk GLB_CHUNK_JSON json ++ (glb_chunk GLB_CHUNK_BIN b ++ [])).length =
      (11 + (glb_chunk GLB_CHUNK_JSON json ++ (glb_chunk GLB_CHUNK_BIN b ++ [])).length) + 1 := by
    omega
  rw [hfuel, glb_parse_chunks_step _ _ _ _ _ _ _ (by omega) (by decide)]
  rw [if_neg (by omega), if_pos rfl, if_neg (by simp), if_neg (by simp)]
  have hfuel2 : 11 + (glb_chunk GLB_CHUNK_JSON json ++ (glb_chunk GLB_CHUNK_BIN b ++ [])).length =
      (10 + (glb_chunk GLB_CHUNK_JSON json ++ (glb_chunk GLB_CHUNK_BIN b ++ [])).length) + 1 := by
    omega
  rw [hfuel2, glb_parse_chunks_step _ _ _ _ _ _ _ (by omega) (by decide)]
  rw [if_neg (by omega), if_neg (by decide), if_neg (by simp), if_pos rfl,
    if_neg (by simp)]
  exact glb_parse_chunks_nil _ _ _ _

theorem glb_parse_header_facts (bytes : List Nat) (pr : List Nat × Option (List Nat))
    (h : glb_parse bytes = .ok pr) :
    12 ≤ bytes.length ∧ rd_u32_le bytes 0 = GLB_MAGIC ∧ rd_u32_le bytes 4 = 2 ∧
      rd_u32_le bytes 8 = bytes.length := by
  delta glb_parse at h
  by_cases h1 : bytes.length < 12
  · rw [if_pos h1] at h; exact Except.noConfusion h
  rw [if_neg h1] at h
  by_cases h2 : rd_u32_le bytes 0 ≠ GLB_MAGIC
  · rw [if_pos h2] at h; exact Except.noConfusion h
  rw [if_neg h2] at h
  by_cases h3 : rd_u32_le bytes 4 ≠ 2
  · rw [if_pos h3] at h; exact Except.noConfusion h
  rw [if_neg h3] at h
  by_cases h4 : rd_u32_le bytes 8 ≠ bytes.length
  · rw [if_pos h4] at h; exact Except.noConfusion h
  refine ⟨by omega, by omega, by omega, by omega⟩

theorem glb_rejects_json_not_first (j b : List Nat) (hb4 : b.length % 4 = 0)
    (hfit : 28 + j.length + b.length < 4294967296) :
    glb_parse (glb_container_raw GLB_MAGIC 2 (28 + b.length + j.length)
      [(GLB_CHUNK_BIN, b), (GLB_CHUNK_JSON, j)]) = .error .errParse := by
  have hlen : 28 + b.length + j.length =
      12 + (([(GLB_CHUNK_BIN, b), (GLB_CHUNK_JSON, j)].map
        fun c => glb_chunk c.1 c.2).flatten).length := by
    simp [glb_chunk_length]; omega
  rw [hlen, glb_parse_container _ (by simp [glb_chunk_length]; omega)]
  have hflat : ([(GLB_CHUNK_BIN, b), (GLB_CHUNK_JSON, j)].map
      fun c => glb_chunk c.1 c.2).flatten
      = glb_chunk GLB_CHUNK_BIN b ++ (glb_chunk GLB_CHUNK_JSON j ++ []) := by simp
  rw [hflat]
  have hfuel : 12 + (glb_chunk GLB_CHUNK_BIN b ++ (glb_chunk GLB_CHUNK_JSON j ++ [])).length =
      (11 + (glb_chunk GLB_CHUNK_BIN b ++ (glb_chunk GLB_CHUNK_JSON j ++ [])).length) + 1 := by
    omega
  rw [hfuel, glb_parse_chunks_step _ _ _ _ _ _ _ (by omega) (by decide)]
  rw [if_neg (by omega), if_neg (by decide), if_pos rfl]

theorem glb_rejects_second_json (j1 j2 : List Nat) (h4 : j1.length % 4 = 0)
    (hfit : 28 + j1.length + j2.length < 4294967296) :
    glb_parse (glb_container_raw GLB_MAGIC 2 (28 + j1.length + j2.length)
      [(GLB_CHUNK_JSON, j1), (GLB_CHUNK_JSON, j2)]) = .error .errParse := by
  have hlen : 28 + j1.length + j2.length =
      12 + (([(GLB_CHUNK_JSON, j1), (GLB_CHUNK_JSON, j2)].map
        fun c => glb_chunk c.1 c.2).flatten).length := by
    simp [glb_chunk_length]; omega
  rw [hlen, glb_parse_container _ (by simp [glb_chunk_length]; omega)]
  have hflat : ([(GLB_CHUNK_JSON, j1), (GLB_CHUNK_JSON, j2)].map
      fun c => glb_chunk c.1 c.2).flatten
      = glb_chunk GLB_CHUNK_JSON j1 ++ (glb_chunk GLB_CHUNK_JSON j2 ++ []) := by simp
  rw [hflat]
  have hfuel : 12 + (glb_chunk GLB_CHUNK_JSON j1 ++ (glb_chunk GLB_CHUNK_JSON j2 ++ [])).length =
      (11 + (glb_chunk GLB_CHUNK_JSON j1 ++ (glb_chunk GLB_CHUNK_JSON j2 ++ [])).length) + 1 := by
    omega
  rw [hfuel, glb_parse_chunks_step _ _ _ _ _ _ _ (by omega) (by decide)]
  rw [if_neg (by omega), if_pos rfl, if_neg (by simp), if_neg (by simp)]
  have hfuel2 : 11 + (glb_chunk GLB_CHUNK_JSON j1 ++ (glb_chunk GLB_CHUNK_JSON j2 ++ [])).length =
      (10 + (glb_chunk GLB_CHUNK_JSON j1 ++ (glb_chunk GLB_CHUNK_JSON j2 ++ [])).length) + 1 := by
    omega
  rw [hfuel2, glb_parse_chunks_step _ _ _ _ _ _ _ (by omega) (by decide)]
  simp

theorem glb_rejects_second_bin (j b1 b2 : List Nat) (h4 : j.length % 4 = 0)
    (hb4 : b1.length % 4 = 0)
    (hfit : 36 + j.length + b1.length + b2.length < 4294967296) :
    glb_parse (glb_container_raw GLB_MAGIC 2 (36 + j.length + b1.length + b2.length)
      [(GLB_CHUNK_JSON, j), (GLB_CHUNK_BIN, b1), (GLB_CHUNK_BIN, b2)]) =
      .error .errParse := by
  have hlen : 36 + j.length + b1.length + b2.length =
      12 + (([(GLB_CHUNK_JSON, j), (GLB_CHUNK_BIN, b1), (GLB_CHUNK_BIN, b2)].map
        fun c => glb_chunk c.1 c.2).flatten).length := by
    simp [glb_chunk_length]; omega
  rw [hlen, glb_parse_container _ (by simp [glb_chunk_length]; omega)]
  have hflat : ([(GLB_CHUNK_JSON, j), (GLB_CHUNK_BIN, b1), (GLB_CHUNK_BIN, b2)].map
      fun c => glb_chunk c.1 c.2).flatten
      = glb_chunk GLB_CHUNK_JSON j ++ (glb_chunk GLB_CHUNK_BIN b1 ++
          (glb_chunk GLB_CHUNK_BIN b2 ++ [])) := by simp
  rw [hflat]
  set L := glb_chunk GLB_CHUNK_JSON j ++ (glb_chunk GLB_CHUNK_BIN b1 ++
    (glb_chunk GLB_CHUNK_BIN b2 ++ [])) with hL
  have hfuel : 12 + L.length = (11 + L.length) + 1 := by omega
  rw [hfuel, hL, glb_parse_chunks_step _ _ _ _ _ _ _ (by omega) (by decide)]
  rw [if_neg (by omega), if_pos rfl, if_neg (by simp), if_neg (by simp)]
  have hfuel2 : 11 + L.length = (10 + L.length) + 1 := by omega
  rw [hfuel2, glb_parse_chunks_step _ _ _ _ _ _ _ (by omega) (by decide)]
  rw [if_neg (by omega), if_neg (by decide), if_neg (by simp), if_pos rfl,
    if_neg (by simp)]
  have hfuel3 : 10 + L.length = (9 + L.length) + 1 := by omega
  rw [hfuel3, glb_parse_chunks_step _ _ _ _ _ _ _ (by omega) (by decide)]
  simp

/-- C3.  The modelled GLB container parser accepts well-formed containers and
rejects malformed ones: (1)-(2) parsing the canonical container for a JSON
payload (alone, or followed by one BIN chunk) succeeds and returns exactly
those payloads; (3) any accepted container has the 12-byte header with magic
`'glTF'`, version 2, and declared length equal to the buffer size; (4) a
container whose first chunk is not the JSON chunk is rejected; (5)-(6)
duplicate JSON or BIN chunks are rejected; (7)-(8) a BIN payload satisfies
`buffers[0]` when that buffer has no URI, and the same construction without a
BIN chunk (plain `.gltf`) is rejected. -/
theorem glb_container_model_spec :
    (∀ json : List Nat, json.length % 4 = 0 → 20 + json.length < 4294967296 →
      glb_parse (glb_encode json none) = .ok (json, none)) ∧
    (∀ json b : List Nat, json.length % 4 = 0 → b.length % 4 = 0 →
      28 + json.length + b.length < 4294967296 →
      glb_parse (glb_encode json (some b)) = .ok (json, some b)) ∧
    (∀ (bytes : List Nat) (pr : List Nat × Option (List Nat)),
      glb_parse bytes = .ok pr →
      12 ≤ bytes.length ∧ rd_u32_le bytes 0 = GLB_MAGIC ∧
        rd_u32_le bytes 4 = 2 ∧ rd_u32_le bytes 8 = bytes.length) ∧
    (∀ j b : List Nat, b.length % 4 = 0 →
      28 + j.length + b.length < 4294967296 →
      glb_parse (glb_container_raw GLB_MAGIC 2 (28 + b.length + j.length)
        [(GLB_CHUNK_BIN, b), (GLB_CHUNK_JSON, j)]) = .error .errParse) ∧
    (∀ j1 j2 : List Nat, j1.length % 4 = 0 →
      28 + j1.length + j2.length < 4294967296 →
      glb_parse (glb_container_raw GLB_MAGIC 2 (28 + j1.length + j2.length)
        [(GLB_CHUNK_JSON, j1), (GLB_CHUNK_JSON, j2)]) = .error .errParse) ∧
    (∀ j b1 b2 : List Nat, j.length % 4 = 0 → b1.length % 4 = 0 →
      36 + j.length + b1.length + b2.length < 4294967296 →
      glb_parse (glb_container_raw GLB_MAGIC 2
        (36 + j.length + b1.length + b2.length)
        [(GLB_CHUNK_JSON, j), (GLB_CHUNK_BIN, b1), (GLB_CHUNK_BIN, b2)]) =
        .error .errParse) ∧
    (∀ b : List Nat, glb_resolve_buffer0 none (some b) = .ok b) ∧
    glb_resolve_buffer0 none none = .error .errParse :=
  ⟨glb_roundtrip_none, glb_roundtrip_some, glb_parse_header_facts,
   glb_rejects_json_not_first, glb_rejects_second_json, glb_rejects_second_bin,
   fun _ => rfl, rfl⟩

/-- C3 witness: the container model theorem applied to concrete payloads. -/
theorem glb_container_model_spec_witness :
    glb_parse (glb_encode [123, 125, 32, 32] (some [1, 2, 3, 4])) =
      .ok ([123, 125, 32, 32], some [1, 2, 3, 4]) ∧
    glb_parse (glb_container_raw GLB_MAGIC 2
      (28 + ([1, 2, 3, 4] : List Nat).length + ([5, 6, 7, 8] : List Nat).length)
      [(GLB_CHUNK_BIN, [1, 2, 3, 4]), (GLB_CHUNK_JSON, [5, 6, 7, 8])]) =
      .error .errParse :=
  ⟨glb_container_model_spec.2.1 [123, 125, 32, 32] [1, 2, 3, 4]
     (by decide) (by decide) (by decide),
   glb_container_model_spec.2.2.2.1 [5, 6, 7, 8] [1, 2, 3, 4]
     (by decide) (by decide)⟩

/-- C9 helper lemmas: LUT/alphabet agreement, bounded bit-reconstruction
identities, the evaluated decoder steps, whitespace transparency of the fold,
and the main induction over 3-byte groups. -/
theorem b64_lut_alpha : ∀ v < 64, b64_lut (b64_alpha v) = v + 1 := by decide

theorem or_shift1 : ∀ x < 64, ∀ y < 64, (x <<< 2 ||| y >>> 4) % 256 = x * 4 + y / 16 := by decide

theorem or_shift2 : ∀ x < 64, ∀ y < 64, ((x &&& 15) <<< 4 ||| y >>> 2) % 256 = x % 16 * 16 + y / 4 := by decide

theorem or_shift3 : ∀ x < 64, ∀ y < 64, ((x &&& 3) <<< 6 ||| y) % 256 = x % 4 * 64 + y := by decide

theorem b64_step_accum (cap : Nat) (st : B64State) (c t : Nat)
    (hl : b64_lut c = t) (ht0 : t ≠ 0) (ht255 : t ≠ 255) (hf : st.finished = false)
    (hq : st.quad.length < 3) :
    b64_step cap st c = .ok { st with quad := st.quad ++ [t] } := by
  unfold b64_step
  rw [hl, if_neg (by unfold B64_SKIP; omega), hf, if_neg (by simp),
    if_neg (by unfold B64_INVALID; omega)]
  rw [if_pos (by simp; omega)]

theorem b64_step_close3 (cap : Nat) (out : List Nat) (d1 d2 d3 d4 c : Nat)
    (hl : b64_lut c = d4 + 1)
    (h1 : d1 < 64) (h2 : d2 < 64) (h3 : d3 < 64) (h4 : d4 < 64)
    (hcap : out.length + 3 ≤ cap) :
    b64_step cap ⟨[d1 + 1, d2 + 1, d3 + 1], false, out⟩ c =
      .ok ⟨[], false, out ++ [(d1 <<< 2 ||| d2 >>> 4) % 256,
                              ((d2 &&& 15) <<< 4 ||| d3 >>> 2) % 256,
                              ((d3 &&& 3) <<< 6 ||| d4) % 256]⟩ := by
  unfold b64_step
  rw [hl, if_neg (by unfold B64_SKIP; omega)]
  simp only [Bool.false_eq_true, if_false]
  rw [if_neg (by unfold B64_INVALID; omega)]
  rw [if_neg (by simp)]
  simp only [List.cons_append, List.nil_append]
  rw [if_neg (by unfold B64_PAD; omega)]
  rw [if_neg (by unfold B64_PAD; omega), if_neg (by unfold B64_PAD; omega)]
  rw [if_neg (by omega)]
  simp only [Nat.add_sub_cancel]

theorem b64_step_pad2 (cap : Nat) (out : List Nat) (d1 d2 : Nat)
    (h1 : d1 < 64) (h2 : d2 < 64) (hcap : out.length + 1 ≤ cap) :
    b64_step cap ⟨[d1 + 1, d2 + 1, 254], false, out⟩ 61 =
      .ok ⟨[], true, out ++ [(d1 <<< 2 ||| d2 >>> 4) % 256]⟩ := by
  unfold b64_step
  rw [show b64_lut 61 = 254 from by decide, if_neg (by unfold B64_SKIP; omega)]
  simp only [Bool.false_eq_true, if_false]
  rw [if_neg (by unfold B64_INVALID; omega)]
  rw [if_neg (by simp)]
  simp only [List.cons_append, List.nil_append]
  rw [if_neg (by unfold B64_PAD; omega)]
  rw [if_pos (show (254 : Nat) = B64_PAD from rfl)]
  rw [if_neg (by unfold B64_PAD; omega)]
  rw [if_neg (by omega)]
  simp only [Nat.add_sub_cancel]

theorem b64_step_pad1 (cap : Nat) (out : List Nat) (d1 d2 d3 : Nat)
    (h1 : d1 < 64) (h2 : d2 < 64) (h3 : d3 < 64) (hcap : out.length + 2 ≤ cap) :
    b64_step cap ⟨[d1 + 1, d2 + 1, d3 + 1], false, out⟩ 61 =
      .ok ⟨[], true, out ++ [(d1 <<< 2 ||| d2 >>> 4) % 256,
                             ((d2 &&& 15) <<< 4 ||| d3 >>> 2) % 256]⟩ := by
  unfold b64_step
  rw [show b64_lut 61 = 254 from by decide, if_neg (by unfold B64_SKIP; omega)]
  simp only [Bool.false_eq_true, if_false]
  rw [if_neg (by unfold B64_INVALID; omega)]
  rw [if_neg (by simp)]
  simp only [List.cons_append, List.nil_append]
  rw [if_neg (by unfold B64_PAD; omega)]
  rw [if_neg (by unfold B64_PAD; omega)]
  rw [if_pos (show (254 : Nat) = B64_PAD from rfl)]
  rw [if_neg (by omega)]
  simp only [Nat.add_sub_cancel]

theorem b64_foldlM_filter (cap : Nat) (input : List Nat) : ∀ (st : B64State),
    input.foldlM (b64_step cap) st =
      (input.filter (fun c => !b64_is_ws c)).foldlM (b64_step cap) st := by
  induction input with
  | nil => intro st; rfl
  | cons c rest ih =>
    intro st
    by_cases hws : b64_is_ws c
    · have hstep : b64_step cap st c = .ok st := by
        have hl : b64_lut c = B64_SKIP := by
          simpa [b64_is_ws] using hws
        unfold b64_step
        rw [hl, if_pos rfl]
      rw [List.foldlM_cons, hstep]
      simp only [List.filter_cons, hws, Bool.not_true, Bool.false_eq_true, if_false]
      show rest.foldlM (b64_step cap) st = _
      exact ih st
    · rw [List.foldlM_cons]
      simp only [List.filter_cons, hws, Bool.not_false, if_true]
      rw [List.foldlM_cons]
      cases hstep : b64_step cap st c with
      | error e => rfl
      | ok st' =>
        show rest.foldlM (b64_step cap) st' = _
        exact ih st'

theorem except_ok_bind (st : B64State) (k : B64State → Except Unit B64State) :
    ((Except.ok st : Except Unit B64State) >>= k) = k st := rfl

theorem b64_encode_fold (cap : Nat) :
    ∀ (n : Nat) (B : List Nat), B.length ≤ n → (∀ x ∈ B, x < 256) →
    ∀ out : List Nat, out.length + B.length ≤ cap →
    ∃ fin : Bool, (base64_encode B).foldlM (b64_step cap) ⟨[], false, out⟩ =
      .ok ⟨[], fin, out ++ B⟩ := by
  intro n
  induction n with
  | zero =>
    intro B hBn _ out _
    have hB : B = [] := List.length_eq_zero.mp (Nat.le_zero.mp hBn)
    subst hB
    refine ⟨false, ?_⟩
    simp [base64_encode]
    rfl
  | succ n ih =>
    intro B hBn hB256 out hcap
    match B with
    | [] =>
      refine ⟨false, ?_⟩
      simp [base64_encode]
      rfl
    | [b1] =>
      have hb1 : b1 < 256 := hB256 b1 (by simp)
      refine ⟨true, ?_⟩
      rw [show base64_encode [b1] =
        [b64_alpha (b1 / 4), b64_alpha (b1 % 4 * 16), 61, 61] from rfl]
      rw [List.foldlM_cons,
        b64_step_accum cap _ _ (b1 / 4 + 1) (b64_lut_alpha _ (by omega)) (by omega)
          (by omega) rfl (by simp),
        except_ok_bind, List.foldlM_cons,
        b64_step_accum cap _ _ (b1 % 4 * 16 + 1) (b64_lut_alpha _ (by omega)) (by omega)
          (by omega) rfl (by simp),
        except_ok_bind, List.foldlM_cons,
        b64_step_accum cap _ _ 254 (by decide) (by omega) (by omega) rfl (by simp),
        except_ok_bind, List.foldlM_cons]
      simp only [List.nil_append, List.cons_append]
      rw [b64_step_pad2 cap out (b1 / 4) (b1 % 4 * 16) (by omega) (by omega)
          (by simp at hcap ⊢; omega),
        except_ok_bind, List.foldlM_nil]
      rw [or_shift1 (b1 / 4) (by omega) (b1 % 4 * 16) (by omega),
        show b1 / 4 * 4 + b1 % 4 * 16 / 16 = b1 from by omega]
      rfl
    | [b1, b2] =>
      have hb1 : b1 < 256 := hB256 b1 (by simp)
      have hb2 : b2 < 256 := hB256 b2 (by simp)
      refine ⟨true, ?_⟩
      rw [show base64_encode [b1, b2] =
        [b64_alpha (b1 / 4), b64_alpha (b1 % 4 * 16 + b2 / 16),
         b64_alpha (b2 % 16 * 4), 61] from rfl]
      rw [List.foldlM_cons,
        b64_step_accum cap _ _ (b1 / 4 + 1) (b64_lut_alpha _ (by omega)) (by omega)
          (by omega) rfl (by simp),
        except_ok_bind, List.foldlM_cons,
        b64_step_accum cap _ _ (b1 % 4 * 16 + b2 / 16 + 1)
          (b64_lut_alpha _ (by omega)) (by omega) (by omega) rfl (by simp),
        except_ok_bind, List.foldlM_cons,
        b64_step_accum cap _ _ (b2 % 16 * 4 + 1) (b64_lut_alpha _ (by omega))
          (by omega) (by omega) rfl (by simp),
        except_ok_bind, List.foldlM_cons]
      simp only [List.nil_append, List.cons_append]
      rw [b64_step_pad1 cap out (b1 / 4) (b1 % 4 * 16 + b2 / 16) (b2 % 16 * 4)
          (by omega) (by omega) (by omega) (by simp at hcap ⊢; omega),
        except_ok_bind, List.foldlM_nil]
      rw [or_shift1 (b1 / 4) (by omega) (b1 % 4 * 16 + b2 / 16) (by omega)]
      rw [or_shift2 (b1 % 4 * 16 + b2 / 16) (by omega) (b2 % 16 * 4) (by omega)]
      have e1 : b1 / 4 * 4 + (b1 % 4 * 16 + b2 / 16) / 16 = b1 := by omega
      have e2 : (b1 % 4 * 16 + b2 / 16) % 16 * 16 + b2 % 16 * 4 / 4 = b2 := by omega
      rw [e1, e2]
      rfl
    | b1 :: b2 :: b3 :: rest =>
      have hb1 : b1 < 256 := hB256 b1 (by simp)
      have hb2 : b2 < 256 := hB256 b2 (by simp)
      have hb3 : b3 < 256 := hB256 b3 (by simp)
      rw [show base64_encode (b1 :: b2 :: b3 :: rest) =
        b64_alpha (b1 / 4) :: b64_alpha (b1 % 4 * 16 + b2 / 16) ::
        b64_alpha (b2 % 16 * 4 + b3 / 64) :: b64_alpha (b3 % 64) ::
          base64_encode rest from rfl]
      rw [List.foldlM_cons,
        b64_step_accum cap _ _ (b1 / 4 + 1) (b64_lut_alpha _ (by omega)) (by omega)
          (by omega) rfl (by simp),
        except_ok_bind, List.foldlM_cons,
        b64_step_accum cap _ _ (b1 % 4 * 16 + b2 / 16 + 1)
          (b64_lut_alpha _ (by omega)) (by omega) (by omega) rfl (by simp),
        except_ok_bind, List.foldlM_cons,
        b64_step_accum cap _ _ (b2 % 16 * 4 + b3 / 64 + 1)
          (b64_lut_alpha _ (by omega)) (by omega) (by omega) rfl (by simp),
        except_ok_bind, List.foldlM_cons]
      simp only [List.nil_append, List.cons_append]
      rw [b64_step_close3 cap out (b1 / 4) (b1 % 4 * 16 + b2 / 16)
          (b2 % 16 * 4 + b3 / 64) (b3 % 64) _ (b64_lut_alpha _ (by omega))
          (by omega) (by omega) (by omega) (by omega) (by simp at hcap ⊢; omega),
        except_ok_bind]
      rw [or_shift1 (b1 / 4) (by omega) (b1 % 4 * 16 + b2 / 16) (by omega)]
      rw [or_shift2 (b1 % 4 * 16 + b2 / 16) (by omega)
        (b2 % 16 * 4 + b3 / 64) (by omega)]
      rw [or_shift3 (b2 % 16 * 4 + b3 / 64) (by omega) (b3 % 64) (by omega)]
      have e1 : b1 / 4 * 4 + (b1 % 4 * 16 + b2 / 16) / 16 = b1 := by omega
      have e2 : (b1 % 4 * 16 + b2 / 16) % 16 * 16 + (b2 % 16 * 4 + b3 / 64) / 4 = b2 := by
        omega
      have e3 : (b2 % 16 * 4 + b3 / 64) % 4 * 64 + b3 % 64 = b3 := by omega
      rw [e1, e2, e3]
      obtain ⟨fin, hfin⟩ := ih rest (by simp at hBn; omega)
        (fun x hx => hB256 x (by simp [hx])) (out ++ [b1, b2, b3])
        (by simp at hcap ⊢; omega)
      rw [hfin]
      refine ⟨fin, ?_⟩
      congr 2
      simp

/-- C9.  For every byte sequence `B`, running `gltf_base64_decode` on the
standard base64 encoding of `B` — or on any input that differs from it only
by interspersed whitespace (the characters the decoder's LUT classifies as
skippable: space, tab, CR, LF, FF, VT) — with sufficient output capacity
succeeds and yields exactly `B`. -/
theorem base64_decode_encode_roundtrip (B s : List Nat) (cap : Nat)
    (hB : ∀ x ∈ B, x < 256)
    (hs : s.filter (fun c => !b64_is_ws c) = base64_encode B)
    (hcap : B.length ≤ cap) :
    gltf_base64_decode s cap = some B := by
  unfold gltf_base64_decode
  rw [b64_foldlM_filter, hs]
  obtain ⟨fin, hfin⟩ := b64_encode_fold cap B.length B le_rfl hB []
    (by simpa using hcap)
  rw [hfin]
  simp

/-- C9 witness: the roundtrip theorem applied to `B = [65, 32, 64, 1]` with
whitespace (a space and a newline) interspersed into its encoding
`"QSBAAQ=="`. -/
theorem base64_decode_encode_roundtrip_witness :
    gltf_base64_decode [81, 32, 83, 66, 10, 65, 65, 81, 61, 61] 4 =
      some [65, 32, 64, 1] :=
  base64_decode_encode_roundtrip [65, 32, 64, 1]
    [81, 32, 83, 66, 10, 65, 65, 81, 61, 61] 4
    (by decide) (by decide) (by decide)

/-- C4.  Whenever `gltf_accessor_span` returns GLTF_OK with a positive
element count, the returned layout satisfies
`byte_offset + (count-1)*stride + elem_size ≤ bufferView.byteLength`, with
`stride = bufferView.byteStride` when nonzero and `elem_size` otherwise, and
`stride ≥ elem_size`.  Inputs violating any of these conditions therefore
cannot reach the `GLTF_OK` return (the contrapositive of this statement). -/
theorem gltf_accessor_span_layout (doc : GltfDoc) (i : Nat) (sp : GltfSpan)
    (h : gltf_accessor_span doc i = .ok sp) (hc : 0 < sp.count) :
    sp.count = (span_a doc i).count ∧
    sp.elem_size = span_elem_size doc i ∧
    sp.stride = (if (span_bv doc i).byte_stride ≠ 0 then
                  (span_bv doc i).byte_stride else sp.elem_size) ∧
    sp.elem_size ≤ sp.stride ∧
    (span_a doc i).byte_offset + ((span_a doc i).count - 1) * sp.stride +
      sp.elem_size ≤ (span_bv doc i).byte_length := by
  delta gltf_accessor_span at h
  by_cases h1 : i ≥ doc.accessors.length
  · rw [if_pos h1] at h; exact Except.noConfusion h
  rw [if_neg h1] at h
  by_cases h2 : (span_a doc i).buffer_view < 0
  · rw [if_pos h2] at h; exact Except.noConfusion h
  rw [if_neg h2] at h
  by_cases h3 : (span_a doc i).buffer_view.toNat ≥ doc.buffer_views.length
  · rw [if_pos h3] at h; exact Except.noConfusion h
  rw [if_neg h3] at h
  by_cases h4 : (span_bv doc i).buffer ≥ doc.buffers.length
  · rw [if_pos h4] at h; exact Except.noConfusion h
  rw [if_neg h4] at h
  by_cases h5 : (span_b doc i).byte_length > 0 ∧ (span_b doc i).data = none
  · rw [if_pos h5] at h; exact Except.noConfusion h
  rw [if_neg h5] at h
  by_cases h6 : (gltf_accessor_component_count (span_a doc i).type).isNone = true
  · rw [if_pos h6] at h; exact Except.noConfusion h
  rw [if_neg h6] at h
  by_cases h7 : (gltf_component_size_bytes (span_a doc i).component_type).isNone = true
  · rw [if_pos h7] at h; exact Except.noConfusion h
  rw [if_neg h7] at h
  by_cases h8 : span_comp_count doc i > U32_MAX / span_comp_size doc i
  · rw [if_pos h8] at h; exact Except.noConfusion h
  rw [if_neg h8] at h
  by_cases h9 : span_stride doc i < span_elem_size doc i
  · rw [if_pos h9] at h; exact Except.noConfusion h
  rw [if_neg h9] at h
  by_cases h10 : (span_bv doc i).byte_offset > SIZE_MAX - (span_a doc i).byte_offset
  · rw [if_pos h10] at h; exact Except.noConfusion h
  rw [if_neg h10] at h
  by_cases h11 : (span_a doc i).byte_offset > (span_bv doc i).byte_length
  · rw [if_pos h11] at h; exact Except.noConfusion h
  rw [if_neg h11] at h
  by_cases h12 : (span_a doc i).count > 0 ∧
      (span_a doc i).byte_offset + ((span_a doc i).count - 1) * span_stride doc i >
      SIZE_MAX - span_elem_size doc i
  · rw [if_pos h12] at h; exact Except.noConfusion h
  rw [if_neg h12] at h
  by_cases h13 : (span_a doc i).count > 0 ∧
      (span_a doc i).byte_offset + ((span_a doc i).count - 1) * span_stride doc i +
      span_elem_size doc i > (span_bv doc i).byte_length
  · rw [if_pos h13] at h; exact Except.noConfusion h
  rw [if_neg h13] at h
  have hsp := Except.ok.inj h
  subst hsp
  refine ⟨rfl, rfl, ?_, ?_, ?_⟩
  · show span_stride doc i = _
    rw [span_stride]
  · show span_elem_size doc i ≤ span_stride doc i
    omega
  · show (span_a doc i).byte_offset + ((span_a doc i).count - 1) *
      span_stride doc i + span_elem_size doc i ≤ (span_bv doc i).byte_length
    have hcount : 0 < (span_a doc i).count := hc
    rcases Decidable.not_and_iff_or_not.mp h13 with hbad | hgood
    · exact absurd hcount hbad
    · omega

/-- C4 witness: the span layout theorem applied to the scenario-1 POSITION
accessor. -/
theorem gltf_accessor_span_layout_witness :
    (⟨some 0, 3, 12, 12⟩ : GltfSpan).count = (span_a scenario1_doc 0).count ∧
    (⟨some 0, 3, 12, 12⟩ : GltfSpan).elem_size = span_elem_size scenario1_doc 0 ∧
    (⟨some 0, 3, 12, 12⟩ : GltfSpan).stride =
      (if (span_bv scenario1_doc 0).byte_stride ≠ 0 then
        (span_bv scenario1_doc 0).byte_stride
       else (⟨some 0, 3, 12, 12⟩ : GltfSpan).elem_size) ∧
    (⟨some 0, 3, 12, 12⟩ : GltfSpan).elem_size ≤
      (⟨some 0, 3, 12, 12⟩ : GltfSpan).stride ∧
    (span_a scenario1_doc 0).byte_offset +
      ((span_a scenario1_doc 0).count - 1) * (⟨some 0, 3, 12, 12⟩ : GltfSpan).stride +
      (⟨some 0, 3, 12, 12⟩ : GltfSpan).elem_size ≤
      (span_bv scenario1_doc 0).byte_length :=
  gltf_accessor_span_layout scenario1_doc 0 ⟨some 0, 3, 12, 12⟩ rfl (by decide)

/-- C10.  `gltf_accessor_span` validates the element range only against
`bufferView.byteLength` and never checks the view against the buffer's
`byte_length`: on a loaded document whose 4-byte buffer carries a view at
offset 100 of length 16 (a view the bufferView loop of `gltf_load_file`
accepts, as shown on its JSON), the span succeeds and its base offset 100
lies beyond the buffer's 4 loaded bytes. -/
theorem accessor_span_unchecked_buffer_bounds :
    gltf_load_file_buffer_view_entry overflow_view_json = .ok
      { buffer := 0, byte_offset := 100, byte_length := 16, byte_stride := 0,
        target := 0 } ∧
    gltf_accessor_span overflow_doc 0 = .ok
      { ptr := some 100, count := 4, stride := 4, elem_size := 4 } ∧
    (overflow_doc.buffers.getD 0 {}).byte_length ≤ 100 := by
  refine ⟨rfl, rfl, by decide⟩

end Gltf

namespace Gltf


theorem updFn_same {α : Type} (f : Nat → α) (i : Nat) (v : α) :
    updFn f i v i = v := by simp [updFn]

theorem updFn_other {α : Type} (f : Nat → α) (i j : Nat) (v : α) (h : j ≠ i) :
    updFn f i v j = f j := by simp [updFn, h]

theorem local_matrix_some (doc : GltfDoc) (n : Nat) (h : n < doc.nodes.length) :
    gltf_node_local_matrix doc n = some (local_matrix doc n) := by
  have hex : ∃ m, gltf_node_local_matrix doc n = some m := by
    unfold gltf_node_local_matrix
    rw [if_neg (by omega)]
    dsimp only
    split
    · exact ⟨_, rfl⟩
    · exact ⟨_, rfl⟩
  obtain ⟨m, hm⟩ := hex
  rw [hm]
  unfold local_matrix
  rw [hm]
  rfl

theorem child_at_mem (doc : GltfDoc) (n j : Nat)
    (h : j < (node_children doc n).count) :
    child_at doc n j ∈ child_list doc n := by
  unfold child_list
  exact List.mem_map_of_mem _ (List.mem_range.mpr h)

theorem child_list_mem_iff (doc : GltfDoc) (n ch : Nat) :
    ch ∈ child_list doc n ↔
      ∃ j < (node_children doc n).count, child_at doc n j = ch := by
  unfold child_list
  simp [List.mem_map, List.mem_range]

theorem eval_one_node_ok_inv (doc : GltfDoc) (c : WorldCache) (node : Nat)
    (pw : List ℚ) (c₁ : WorldCache)
    (h : eval_one_node doc c node pw = .ok c₁)
    (h0 : c.state node = DFS_UNVISITED) :
    node < doc.nodes.length ∧
    c₁ = { c with
           state := updFn c.state node DFS_VISITING
           world := updFn c.world node (mat4_mul pw (local_matrix doc node)) } := by
  unfold eval_one_node at h
  by_cases hb : node ≥ doc.nodes.length
  · rw [if_pos hb] at h; exact Except.noConfusion h
  rw [if_neg hb] at h
  rw [if_neg (by unfold DFS_UNVISITED at h0; unfold DFS_DONE; omega)] at h
  rw [if_neg (by unfold DFS_UNVISITED at h0; unfold DFS_VISITING; omega)] at h
  rw [local_matrix_some doc node (by omega)] at h
  refine ⟨by omega, ?_⟩
  have := Except.ok.inj h
  exact this.symm


theorem topOk_mono (doc : GltfDoc) (c c' : WorldCache) (f : DfsFrame)
    (hm : ∀ n, c.state n = DFS_DONE → c'.state n = DFS_DONE)
    (h : TopOk doc c f) : TopOk doc c' f := by
  intro j hj
  exact ⟨(h j hj).1, hm _ (h j hj).2⟩

theorem aboveOk_mono (doc : GltfDoc) (c c' : WorldCache) (g : Nat)
    (f : DfsFrame)
    (hm : ∀ n, c.state n = DFS_DONE → c'.state n = DFS_DONE)
    (h : AboveOk doc c g f) : AboveOk doc c' g f := by
  refine ⟨h.1, h.2.1, fun j hj => ⟨(h.2.2 j hj).1, hm _ (h.2.2 j hj).2⟩⟩

theorem chainBelow_mono (doc : GltfDoc) (c c' : WorldCache)
    (hm : ∀ n, c.state n = DFS_DONE → c'.state n = DFS_DONE) :
    ∀ (fs : List DfsFrame) (g : Nat),
      ChainBelow doc c g fs → ChainBelow doc c' g fs := by
  intro fs
  induction fs with
  | nil => intro g h; exact h
  | cons f rest ih =>
    intro g h
    exact ⟨aboveOk_mono doc c c' g f hm h.1, ih f.node h.2⟩

theorem frameOk_mono (doc : GltfDoc) (roots : List Nat) (c c' : WorldCache)
    (f : DfsFrame)
    (hm : ∀ n, c.state n ≠ DFS_UNVISITED → c'.state n ≠ DFS_UNVISITED)
    (h : FrameOk doc roots c f) : FrameOk doc roots c' f := by
  obtain ⟨h1, h2, h3, h4, h5⟩ := h
  refine ⟨h1, h2, h3, h4, ?_⟩
  cases hp : f.parent with
  | none => rw [hp] at h5; exact h5
  | some p => rw [hp] at h5; exact ⟨h5.1, hm p h5.2.1, h5.2.2⟩

theorem worldSpec_mono (doc : GltfDoc) (roots : List Nat) (c c' : WorldCache)
    (n : Nat)
    (hm : ∀ k, c.state k ≠ DFS_UNVISITED → c'.state k ≠ DFS_UNVISITED)
    (hw : ∀ k, c.state k ≠ DFS_UNVISITED → c'.world k = c.world k)
    (hn : c.state n ≠ DFS_UNVISITED)
    (h : WorldSpec doc roots c n) : WorldSpec doc roots c' n := by
  rcases h with ⟨p, hp1, hp2, hp3, hp4⟩ | ⟨h1, h2⟩
  · exact Or.inl ⟨p, hp1, hm p hp2, hp3, by rw [hw n hn, hw p hp2]; exact hp4⟩
  · exact Or.inr ⟨h1, by rw [hw n hn]; exact h2⟩

theorem dfs_step_cons (doc : GltfDoc) (c : WorldCache) (f : DfsFrame)
    (rest : List DfsFrame) :
    dfs_step doc c (f :: rest) =
      if c.state f.node = DFS_UNVISITED then
        match eval_one_node doc c f.node
            (match f.parent with
             | none => mat4_identity
             | some p => c.world p) with
        | .error e => .error e
        | .ok c₁ => .ok (c₁, f :: rest)
      else
        if ¬children_range_ok doc f.node then .error (.res .errInvalid)
        else
          if f.child_i < (node_children doc f.node).count then
            if child_at doc f.node f.child_i ≥ doc.nodes.length then
              .error (.res .errInvalid)
            else if ({ f with child_i := f.child_i + 1 } :: rest).length ≥
                doc.nodes.length then
              .error .stackOverflowUB
            else .ok (c, ⟨child_at doc f.node f.child_i, some f.node, 0⟩ ::
              { f with child_i := f.child_i + 1 } :: rest)
          else .ok ({ c with state := updFn c.state f.node DFS_DONE }, rest) :=
  rfl

theorem dfs_step_eval (doc : GltfDoc) (c : WorldCache) (f : DfsFrame)
    (rest : List DfsFrame) (h0 : c.state f.node = DFS_UNVISITED) :
    dfs_step doc c (f :: rest) =
      match eval_one_node doc c f.node
          (match f.parent with
           | none => mat4_identity
           | some p => c.world p) with
      | .error e => .error e
      | .ok c₁ => .ok (c₁, f :: rest) := by
  rw [dfs_step_cons, if_pos h0]

theorem dfs_step_push (doc : GltfDoc) (c : WorldCache) (f : DfsFrame)
    (rest : List DfsFrame)
    (h0 : c.state f.node ≠ DFS_UNVISITED) (hr : children_range_ok doc f.node)
    (hci : f.child_i < (node_children doc f.node).count)
    (hcb : child_at doc f.node f.child_i < doc.nodes.length)
    (hcap : rest.length + 2 ≤ doc.nodes.length) :
    dfs_step doc c (f :: rest) =
      .ok (c, ⟨child_at doc f.node f.child_i, some f.node, 0⟩ ::
        { f with child_i := f.child_i + 1 } :: rest) := by
  rw [dfs_step_cons, if_neg h0, if_neg (not_not_intro hr), if_pos hci,
    if_neg (by omega), if_neg (by simp; omega)]

theorem dfs_step_pop (doc : GltfDoc) (c : WorldCache) (f : DfsFrame)
    (rest : List DfsFrame)
    (h0 : c.state f.node ≠ DFS_UNVISITED) (hr : children_range_ok doc f.node)
    (hci : ¬ f.child_i < (node_children doc f.node).count) :
    dfs_step doc c (f :: rest) =
      .ok ({ c with state := updFn c.state f.node DFS_DONE }, rest) := by
  rw [dfs_step_cons, if_neg h0, if_neg (not_not_intro hr), if_neg hci]

theorem dfs_preserve_eval (doc : GltfDoc) (roots : List Nat) (c : WorldCache)
    (f : DfsFrame) (rest : List DfsFrame) (c₁ : WorldCache)
    (hinv : DfsInv doc roots c (f :: rest))
    (h0 : c.state f.node = DFS_UNVISITED)
    (hE : eval_one_node doc c f.node
      (match f.parent with
       | none => mat4_identity
       | some p => c.world p) = .ok c₁) :
    DfsInv doc roots c₁ (f :: rest) ∧ (∀ n, c.state n ≤ c₁.state n) ∧
    c₁.node_count = c.node_count ∧ c₁.valid = c.valid := by
  obtain ⟨hvlen, hc₁⟩ := eval_one_node_ok_inv doc c f.node _ c₁ hE h0
  have hs := congrArg WorldCache.state hc₁
  have hwq := congrArg WorldCache.world hc₁
  have hnc := congrArg WorldCache.node_count hc₁
  have hvd := congrArg WorldCache.valid hc₁
  have hsv : c₁.state f.node = DFS_VISITING :=
    (congrFun hs f.node).trans (updFn_same _ _ _)
  have hsn : ∀ n, n ≠ f.node → c₁.state n = c.state n :=
    fun n hn => (congrFun hs n).trans (updFn_other _ _ _ _ hn)
  have hwn := (congrFun hwq f.node).trans (updFn_same _ _ _)
  have hwo : ∀ n, n ≠ f.node → c₁.world n = c.world n :=
    fun n hn => (congrFun hwq n).trans (updFn_other _ _ _ _ hn)
  have hm01 : ∀ k, c.state k ≠ DFS_UNVISITED → c₁.state k ≠ DFS_UNVISITED := by
    intro k hk
    by_cases hkv : k = f.node
    · rw [hkv, hsv]; decide
    · rw [hsn k hkv]; exact hk
  have hmd : ∀ k, c.state k = DFS_DONE → c₁.state k = DFS_DONE := by
    intro k hk
    have hkv : k ≠ f.node := by
      intro he; rw [he] at hk
      exact absurd (h0.symm.trans hk) (by decide)
    rw [hsn k hkv]; exact hk
  obtain ⟨hf1, hf2, hf3, hf4, hf5⟩ := hinv.frames f (List.mem_cons_self f rest)
  obtain ⟨htf, hcbf⟩ := hinv.chain
  refine ⟨⟨?_, ?_, ?_, ?_, ?_, ?_, ?_, ?_⟩, ?_, hnc, hvd⟩
  · intro n
    by_cases hn : n = f.node
    · rw [hn, hsv]; decide
    · rw [hsn n hn]; exact hinv.state_le n
  · intro n hne
    by_cases hn : n = f.node
    · rw [hn]; exact hvlen
    · rw [hsn n hn] at hne; exact hinv.bounded n hne
  · intro n hne
    by_cases hn : n = f.node
    · rw [hn]; exact hf2
    · rw [hsn n hn] at hne; exact hinv.reach n hne
  · intro n hne
    by_cases hn : n = f.node
    · subst hn
      cases hp : f.parent with
      | none =>
        rw [hp] at hf5 hwn
        exact Or.inr ⟨hf5, hwn⟩
      | some p =>
        rw [hp] at hf5 hwn
        have hpne : p ≠ f.node := by
          intro heq
          exact hf5.2.1 (by rw [heq]; exact h0)
        refine Or.inl ⟨p, hf5.1, ?_, hf5.2.2, ?_⟩
        · rw [hsn p hpne]; exact hf5.2.1
        · rw [hwo p hpne]; exact hwn
    · have hne' : c.state n ≠ DFS_UNVISITED := by rw [← hsn n hn]; exact hne
      refine worldSpec_mono doc roots c c₁ n hm01 ?_ hne' (hinv.world_ok n hne')
      intro k hk
      refine hwo k ?_
      intro hkv
      exact hk (by rw [hkv]; exact h0)
  · intro n hn1
    by_cases hn : n = f.node
    · exact ⟨f, List.mem_cons_self f rest, hn.symm⟩
    · rw [hsn n hn] at hn1
      exact hinv.vis_stack n hn1
  · intro n hn2
    have hnv : n ≠ f.node := by
      intro he; rw [he, hsv] at hn2
      exact absurd hn2 (by decide)
    rw [hsn n hnv] at hn2
    obtain ⟨hrk, hch⟩ := hinv.done_closed n hn2
    exact ⟨hrk, fun ch hm2 => ⟨(hch ch hm2).1, hmd ch (hch ch hm2).2⟩⟩
  · intro g hg
    exact frameOk_mono doc roots c c₁ g hm01 (hinv.frames g hg)
  · exact ⟨topOk_mono doc c c₁ f hmd htf,
      chainBelow_mono doc c c₁ hmd rest f.node hcbf⟩
  · intro n
    by_cases hn : n = f.node
    · rw [hn, hsv, h0]; decide
    · rw [hsn n hn]

theorem dfs_preserve_push (doc : GltfDoc) (roots : List Nat) (c : WorldCache)
    (f : DfsFrame) (rest : List DfsFrame)
    (hinv : DfsInv doc roots c (f :: rest))
    (h0 : c.state f.node ≠ DFS_UNVISITED)
    (hr : children_range_ok doc f.node)
    (hci : f.child_i < (node_children doc f.node).count)
    (hcb : child_at doc f.node f.child_i < doc.nodes.length) :
    DfsInv doc roots c (⟨child_at doc f.node f.child_i, some f.node, 0⟩ ::
      { f with child_i := f.child_i + 1 } :: rest) := by
  obtain ⟨hf1, hf2, hf3, hf4, hf5⟩ := hinv.frames f (List.mem_cons_self f rest)
  obtain ⟨htf, hcbf⟩ := hinv.chain
  have hchild_mem : child_at doc f.node f.child_i ∈ child_list doc f.node :=
    child_at_mem doc f.node f.child_i hci
  have hchild_reach : Reaches doc roots (child_at doc f.node f.child_i) :=
    Reaches.child hf2 hchild_mem
  refine ⟨hinv.state_le, hinv.bounded, hinv.reach, hinv.world_ok, ?_,
    hinv.done_closed, ?_, ?_⟩
  · intro n hn1
    obtain ⟨g, hg, hgn⟩ := hinv.vis_stack n hn1
    rcases List.mem_cons.mp hg with hgf | hgr
    · refine ⟨{ f with child_i := f.child_i + 1 }, by simp, ?_⟩
      rw [hgf] at hgn
      exact hgn
    · exact ⟨g, by simp [hgr], hgn⟩
  · intro g hg
    rcases List.mem_cons.mp hg with hgf | hg2
    · rw [hgf]
      exact ⟨hcb, hchild_reach, Nat.zero_le _, fun hz => absurd rfl hz,
        ⟨hf1, h0, hchild_mem⟩⟩
    rcases List.mem_cons.mp hg2 with hgf2 | hgr
    · rw [hgf2]
      exact ⟨hf1, hf2,
        by show f.child_i + 1 ≤ (node_children doc f.node).count; omega,
        fun _ => hr, hf5⟩
    · exact hinv.frames g (List.mem_cons_of_mem f hgr)
  · refine ⟨?_, ?_, ?_⟩
    · intro j hj
      exact absurd hj (Nat.not_lt_zero j)
    · refine ⟨Nat.succ_le_succ (Nat.zero_le _), ?_, ?_⟩
      · rw [Nat.add_sub_cancel]
      · intro j hj
        rw [Nat.add_sub_cancel] at hj
        exact htf j hj
    · exact hcbf

theorem dfs_preserve_pop (doc : GltfDoc) (roots : List Nat) (c : WorldCache)
    (f : DfsFrame) (rest : List DfsFrame) (c₁ : WorldCache)
    (hinv : DfsInv doc roots c (f :: rest))
    (h0 : c.state f.node ≠ DFS_UNVISITED)
    (hr : children_range_ok doc f.node)
    (hci : ¬ f.child_i < (node_children doc f.node).count)
    (hc₁ : c₁ = { c with state := updFn c.state f.node DFS_DONE }) :
    DfsInv doc roots c₁ rest ∧ (∀ n, c.state n ≤ c₁.state n) ∧
    c₁.node_count = c.node_count ∧ c₁.valid = c.valid ∧
    c₁.state f.node = DFS_DONE := by
  have hs := congrArg WorldCache.state hc₁
  have hwq := congrArg WorldCache.world hc₁
  have hnc := congrArg WorldCache.node_count hc₁
  have hvd := congrArg WorldCache.valid hc₁
  have hsd : c₁.state f.node = DFS_DONE :=
    (congrFun hs f.node).trans (updFn_same _ _ _)
  have hsn : ∀ n, n ≠ f.node → c₁.state n = c.state n :=
    fun n hn => (congrFun hs n).trans (updFn_other _ _ _ _ hn)
  have hwe : ∀ n, c₁.world n = c.world n := fun n => congrFun hwq n
  obtain ⟨hf1, hf2, hf3, hf4, hf5⟩ := hinv.frames f (List.mem_cons_self f rest)
  obtain ⟨htf, hcbf⟩ := hinv.chain
  have hci_eq : f.child_i = (node_children doc f.node).count := by omega
  have hmd : ∀ k, c.state k = DFS_DONE → c₁.state k = DFS_DONE := by
    intro k hk
    by_cases hkv : k = f.node
    · rw [hkv]; exact hsd
    · rw [hsn k hkv]; exact hk
  have hm01 : ∀ k, c.state k ≠ DFS_UNVISITED → c₁.state k ≠ DFS_UNVISITED := by
    intro k hk
    by_cases hkv : k = f.node
    · rw [hkv, hsd]; decide
    · rw [hsn k hkv]; exact hk
  refine ⟨⟨?_, ?_, ?_, ?_, ?_, ?_, ?_, ?_⟩, ?_, hnc, hvd, hsd⟩
  · intro n
    by_cases hn : n = f.node
    · rw [hn, hsd]; decide
    · rw [hsn n hn]; exact hinv.state_le n
  · intro n hne
    by_cases hn : n = f.node
    · rw [hn]; exact hf1
    · rw [hsn n hn] at hne; exact hinv.bounded n hne
  · intro n hne
    by_cases hn : n = f.node
    · rw [hn]; exact hf2
    · rw [hsn n hn] at hne; exact hinv.reach n hne
  · intro n hne
    have hne' : c.state n ≠ DFS_UNVISITED := by
      by_cases hn : n = f.node
      · rw [hn]; exact h0
      · rw [← hsn n hn]; exact hne
    exact worldSpec_mono doc roots c c₁ n hm01 (fun k _ => hwe k) hne'
      (hinv.world_ok n hne')
  · intro n hn1
    have hnv : n ≠ f.node := by
      intro he
      rw [he, hsd] at hn1
      exact absurd hn1 (by decide)
    rw [hsn n hnv] at hn1
    obtain ⟨g, hg, hgn⟩ := hinv.vis_stack n hn1
    rcases List.mem_cons.mp hg with hgf | hgr
    · rw [hgf] at hgn
      exact absurd hgn.symm hnv
    · exact ⟨g, hgr, hgn⟩
  · intro n hn2
    by_cases hn : n = f.node
    · subst hn
      refine ⟨hr, fun ch hchm => ?_⟩
      obtain ⟨j, hjc, hje⟩ := (child_list_mem_iff doc f.node ch).mp hchm
      obtain ⟨hjl, hjd⟩ := htf j (by omega)
      rw [hje] at hjl hjd
      exact ⟨hjl, hmd ch hjd⟩
    · rw [hsn n hn] at hn2
      obtain ⟨hrk, hch⟩ := hinv.done_closed n hn2
      exact ⟨hrk, fun ch hm2 => ⟨(hch ch hm2).1, hmd ch (hch ch hm2).2⟩⟩
  · intro g hg
    exact frameOk_mono doc roots c c₁ g hm01
      (hinv.frames g (List.mem_cons_of_mem f hg))
  · cases rest with
    | nil => exact trivial
    | cons t rest2 =>
      obtain ⟨hab, hcb2⟩ := hcbf
      obtain ⟨hab1, hab2, hab3⟩ := hab
      refine ⟨?_, chainBelow_mono doc c c₁ hmd rest2 t.node hcb2⟩
      intro j hj
      by_cases hjt : j < t.child_i - 1
      · exact ⟨(hab3 j hjt).1, hmd _ (hab3 j hjt).2⟩
      · have hje : j = t.child_i - 1 := by omega
        rw [hje, hab2]
        exact ⟨hf1, hsd⟩
  · intro n
    by_cases hn : n = f.node
    · rw [hn, hsd]
      exact hinv.state_le f.node
    · rw [hsn n hn]

theorem dfs_step_preserves (doc : GltfDoc) (roots : List Nat)
    (c : WorldCache) (st : List DfsFrame) (c₁ : WorldCache)
    (st₁ : List DfsFrame)
    (hinv : DfsInv doc roots c st)
    (h : dfs_step doc c st = .ok (c₁, st₁)) :
    DfsInv doc roots c₁ st₁ ∧ (∀ n, c.state n ≤ c₁.state n) ∧
    c₁.node_count = c.node_count ∧ c₁.valid = c.valid ∧
    (∀ f ∈ st, (∃ g ∈ st₁, g.node = f.node) ∨ c₁.state f.node = DFS_DONE) := by
  cases st with
  | nil =>
    have h' : (Except.error (StepErr.res GltfResult.errInvalid) :
        Except StepErr (WorldCache × List DfsFrame)) = .ok (c₁, st₁) := h
    exact Except.noConfusion h'
  | cons f rest =>
    by_cases h0 : c.state f.node = DFS_UNVISITED
    · rw [dfs_step_eval doc c f rest h0] at h
      cases hE : eval_one_node doc c f.node
          (match f.parent with
           | none => mat4_identity
           | some p => c.world p) with
      | error e =>
        rw [hE] at h
        have h' : (Except.error e :
            Except StepErr (WorldCache × List DfsFrame)) = .ok (c₁, st₁) := h
        exact Except.noConfusion h'
      | ok c2 =>
        rw [hE] at h
        have h' : (Except.ok (c2, f :: rest) :
            Except StepErr (WorldCache × List DfsFrame)) = .ok (c₁, st₁) := h
        have hp2 := Except.ok.inj h'
        have hc : c₁ = c2 := (congrArg Prod.fst hp2).symm
        have hst : st₁ = f :: rest := (congrArg Prod.snd hp2).symm
        subst hc; subst hst
        obtain ⟨hi, hmono, hnc, hvd⟩ :=
          dfs_preserve_eval doc roots c f rest c₁ hinv h0 hE
        exact ⟨hi, hmono, hnc, hvd, fun g hg => Or.inl ⟨g, hg, rfl⟩⟩
    · by_cases hr : children_range_ok doc f.node
      · by_cases hci : f.child_i < (node_children doc f.node).count
        · by_cases hcb : child_at doc f.node f.child_i ≥ doc.nodes.length
          · rw [dfs_step_cons, if_neg h0, if_neg (not_not_intro hr),
              if_pos hci, if_pos hcb] at h
            exact Except.noConfusion h
          · by_cases hcap : ({ f with child_i := f.child_i + 1 } :: rest).length ≥
                doc.nodes.length
            · rw [dfs_step_cons, if_neg h0, if_neg (not_not_intro hr),
                if_pos hci, if_neg hcb, if_pos hcap] at h
              exact Except.noConfusion h
            · rw [dfs_step_push doc c f rest h0 hr hci (by omega)
                (by simp only [List.length_cons, ge_iff_le, not_le] at hcap
                    omega)] at h
              have hp2 := Except.ok.inj h
              have hc : c₁ = c := (congrArg Prod.fst hp2).symm
              have hst : st₁ =
                  ⟨child_at doc f.node f.child_i, some f.node, 0⟩ ::
                    { f with child_i := f.child_i + 1 } :: rest :=
                (congrArg Prod.snd hp2).symm
              subst hc; subst hst
              refine ⟨dfs_preserve_push doc roots c₁ f rest hinv h0 hr hci
                (by omega), fun n => le_refl _, rfl, rfl, ?_⟩
              intro g hg
              rcases List.mem_cons.mp hg with hgf | hgr
              · refine Or.inl ⟨{ f with child_i := f.child_i + 1 }, by simp, ?_⟩
                rw [hgf]
              · exact Or.inl ⟨g, by simp [hgr], rfl⟩
        · rw [dfs_step_pop doc c f rest h0 hr hci] at h
          have hp2 := Except.ok.inj h
          have hc : c₁ = { c with state := updFn c.state f.node DFS_DONE } :=
            (congrArg Prod.fst hp2).symm
          have hst : st₁ = rest := (congrArg Prod.snd hp2).symm
          subst hst
          obtain ⟨hi, hmono, hnc, hvd, hsd⟩ :=
            dfs_preserve_pop doc roots c f st₁ c₁ hinv h0 hr hci hc
          refine ⟨hi, hmono, hnc, hvd, ?_⟩
          intro g hg
          rcases List.mem_cons.mp hg with hgf | hgr
          · right; rw [hgf]; exact hsd
          · exact Or.inl ⟨g, hgr, rfl⟩
      · rw [dfs_step_cons, if_neg h0, if_pos (by exact hr)] at h
        exact Except.noConfusion h

theorem dfs_run_nil (doc : GltfDoc) (fuel : Nat) (c : WorldCache) :
    dfs_run doc fuel c [] = .ok c := by
  cases fuel <;> rfl

theorem dfs_run_succ_cons (doc : GltfDoc) (fuel : Nat) (c : WorldCache)
    (f : DfsFrame) (rest : List DfsFrame) :
    dfs_run doc (fuel + 1) c (f :: rest) =
      match dfs_step doc c (f :: rest) with
      | .error e => .error e
      | .ok (c₂, st₂) => dfs_run doc fuel c₂ st₂ := rfl

theorem dfs_run_preserves (doc : GltfDoc) (roots : List Nat) :
    ∀ (fuel : Nat) (c : WorldCache) (st : List DfsFrame) (c' : WorldCache),
      DfsInv doc roots c st → dfs_run doc fuel c st = .ok c' →
      DfsInv doc roots c' [] ∧ (∀ n, c.state n ≤ c'.state n) ∧
      c'.node_count = c.node_count ∧ c'.valid = c.valid ∧
      (∀ f ∈ st, c'.state f.node = DFS_DONE) := by
  intro fuel
  induction fuel with
  | zero =>
    intro c st c' hinv h
    cases st with
    | nil =>
      have h' : (Except.ok c : Except StepErr WorldCache) = .ok c' := h
      have hc := Except.ok.inj h'
      subst hc
      exact ⟨hinv, fun n => le_refl _, rfl, rfl,
        fun f hf => absurd hf (List.not_mem_nil f)⟩
    | cons f rest =>
      have h' : (Except.error StepErr.outOfFuel :
          Except StepErr WorldCache) = .ok c' := h
      exact Except.noConfusion h'
  | succ fuel ih =>
    intro c st c' hinv h
    cases st with
    | nil =>
      have h' : (Except.ok c : Except StepErr WorldCache) = .ok c' := h
      have hc := Except.ok.inj h'
      subst hc
      exact ⟨hinv, fun n => le_refl _, rfl, rfl,
        fun f hf => absurd hf (List.not_mem_nil f)⟩
    | cons f rest =>
      rw [dfs_run_succ_cons] at h
      cases hS : dfs_step doc c (f :: rest) with
      | error e =>
        rw [hS] at h
        have h' : (Except.error e : Except StepErr WorldCache) = .ok c' := h
        exact Except.noConfusion h'
      | ok p =>
        obtain ⟨c₂, st₂⟩ := p
        rw [hS] at h
        have h2 : dfs_run doc fuel c₂ st₂ = .ok c' := h
        obtain ⟨hi1, hm1, hnc1, hvd1, htrk⟩ :=
          dfs_step_preserves doc roots c (f :: rest) c₂ st₂ hinv hS
        obtain ⟨hi2, hm2, hnc2, hvd2, hdone2⟩ := ih c₂ st₂ c' hi1 h2
        refine ⟨hi2, fun n => le_trans (hm1 n) (hm2 n), hnc2.trans hnc1,
          hvd2.trans hvd1, ?_⟩
        intro g hg
        rcases htrk g hg with ⟨g2, hg2, hgn⟩ | hdone
        · rw [← hgn]; exact hdone2 g2 hg2
        · have hlow : DFS_DONE ≤ c'.state g.node := by
            rw [← hdone]; exact hm2 g.node
          have hhigh := hi2.state_le g.node
          show c'.state g.node = 2
          have hlow2 : 2 ≤ c'.state g.node := hlow
          omega

theorem compute_roots_go_cons (doc : GltfDoc) (fuel root : Nat)
    (more : List Nat) (c : WorldCache) :
    compute_roots_go doc fuel (root :: more) c =
      if root ≥ doc.nodes.length then .error (.res .errInvalid)
      else if c.state root = DFS_DONE then compute_roots_go doc fuel more c
      else
        match dfs_run doc fuel c [⟨root, none, 0⟩] with
        | .error e => .error e
        | .ok c₂ => compute_roots_go doc fuel more c₂ := rfl

theorem compute_roots_preserves (doc : GltfDoc) (roots : List Nat)
    (fuel : Nat) :
    ∀ (rs : List Nat) (c c' : WorldCache),
      (∀ r ∈ rs, r ∈ roots) → DfsInv doc roots c [] →
      compute_roots_go doc fuel rs c = .ok c' →
      DfsInv doc roots c' [] ∧ (∀ n, c.state n ≤ c'.state n) ∧
      c'.node_count = c.node_count ∧ c'.valid = c.valid ∧
      (∀ r ∈ rs, c'.state r = DFS_DONE) := by
  intro rs
  induction rs with
  | nil =>
    intro c c' _ hinv h
    have h' : (Except.ok c : Except StepErr WorldCache) = .ok c' := h
    have hc := Except.ok.inj h'
    subst hc
    exact ⟨hinv, fun n => le_refl _, rfl, rfl,
      fun r hr => absurd hr (List.not_mem_nil r)⟩
  | cons root more ih =>
    intro c c' hsub hinv h
    rw [compute_roots_go_cons] at h
    by_cases hb : root ≥ doc.nodes.length
    · rw [if_pos hb] at h
      exact Except.noConfusion h
    rw [if_neg hb] at h
    by_cases hd : c.state root = DFS_DONE
    · rw [if_pos hd] at h
      obtain ⟨hi, hm, hnc, hvd, hall⟩ :=
        ih c c' (fun r hr => hsub r (List.mem_cons_of_mem _ hr)) hinv h
      refine ⟨hi, hm, hnc, hvd, ?_⟩
      intro r hr
      rcases List.mem_cons.mp hr with hrf | hrm
      · subst hrf
        have hlow : DFS_DONE ≤ c'.state r := by rw [← hd]; exact hm r
        have hhigh := hi.state_le r
        show c'.state r = 2
        have hlow2 : 2 ≤ c'.state r := hlow
        omega
      · exact hall r hrm
    · rw [if_neg hd] at h
      have hroot_mem : root ∈ roots := hsub root (List.mem_cons_self _ _)
      have hinv1 : DfsInv doc roots c [⟨root, none, 0⟩] := by
        refine ⟨hinv.state_le, hinv.bounded, hinv.reach, hinv.world_ok, ?_,
          hinv.done_closed, ?_, ?_⟩
        · intro n hn1
          obtain ⟨g, hg, _⟩ := hinv.vis_stack n hn1
          exact absurd hg (List.not_mem_nil g)
        · intro g hg
          rcases List.mem_cons.mp hg with hgf | hgr
          · rw [hgf]
            exact ⟨by show root < doc.nodes.length; omega,
              Reaches.root hroot_mem, Nat.zero_le _,
              fun hz => absurd rfl hz, hroot_mem⟩
          · exact absurd hgr (List.not_mem_nil g)
        · exact ⟨fun j hj => absurd hj (Nat.not_lt_zero j), trivial⟩
      cases hR : dfs_run doc fuel c [⟨root, none, 0⟩] with
      | error e =>
        rw [hR] at h
        have h' : (Except.error e : Except StepErr WorldCache) = .ok c' := h
        exact Except.noConfusion h'
      | ok c₂ =>
        rw [hR] at h
        have h2 : compute_roots_go doc fuel more c₂ = .ok c' := h
        obtain ⟨hi1, hm1, hnc1, hvd1, hall1⟩ :=
          dfs_run_preserves doc roots fuel c [⟨root, none, 0⟩] c₂ hinv1 hR
        obtain ⟨hi2, hm2, hnc2, hvd2, hall2⟩ :=
          ih c₂ c' (fun r hr => hsub r (List.mem_cons_of_mem _ hr)) hi1 h2
        refine ⟨hi2, fun n => le_trans (hm1 n) (hm2 n), hnc2.trans hnc1,
          hvd2.trans hvd1, ?_⟩
        intro r hr
        rcases List.mem_cons.mp hr with hrf | hrm
        · subst hrf
          have hd2 := hall1 ⟨r, none, 0⟩ (List.mem_cons_self _ _)
          have hlow : DFS_DONE ≤ c'.state r := by
            rw [← hd2]; exact hm2 r
          have hhigh := hi2.state_le r
          show c'.state r = 2
          have hlow2 : 2 ≤ c'.state r := hlow
          omega
        · exact hall2 r hrm

theorem reaches_nil (doc : GltfDoc) (n : Nat) : ¬ Reaches doc [] n := by
  intro h
  induction h with
  | root hmem => exact absurd hmem (List.not_mem_nil _)
  | child hp hcm ih => exact ih

theorem gcwm_eq (doc : GltfDoc) (si : Nat) (cache : WorldCache) (fuel : Nat) :
    gltf_compute_world_matrices doc si cache fuel =
      if cache.node_count ≠ doc.nodes.length then .error (.res .errInvalid)
      else if si ≥ doc.scenes.length then .error (.res .errInvalid)
      else if (doc.scenes.getD si {}).nodes.count = 0 then
        .ok { cache with
              valid := true
              scene_index := si
              state := fun _ => DFS_UNVISITED }
      else if (doc.scenes.getD si {}).nodes.first > doc.indices_u32.length ∨
          (doc.scenes.getD si {}).nodes.count >
            doc.indices_u32.length - (doc.scenes.getD si {}).nodes.first then
        .error (.res .errInvalid)
      else
        match compute_roots_go doc fuel
            (scene_root_list doc (doc.scenes.getD si {}))
            { cache with
              valid := false
              scene_index := si
              state := fun _ => DFS_UNVISITED } with
        | .error e => .error e
        | .ok c₂ => .ok { c₂ with valid := true } := rfl

/-- C7.  After `gltf_compute_world_matrices` succeeds for scene `si` into the
cache, every node reachable from the scene's root list is DONE with its
cached world matrix equal to `parent_world * local` (identity parent for
roots), every unreachable node is left UNVISITED, and `gltf_world_matrix`
returns the cached matrix exactly for DONE nodes and 0 (`none`)
otherwise. -/
theorem gltf_compute_world_matrices_correct (doc : GltfDoc) (si : Nat)
    (cache : WorldCache) (fuel : Nat) (c' : WorldCache)
    (h : gltf_compute_world_matrices doc si cache fuel = .ok c') :
    ∀ n, n < doc.nodes.length →
      (Reaches doc (scene_root_list doc (doc.scenes.getD si {})) n →
        c'.state n = DFS_DONE ∧
        WorldSpec doc (scene_root_list doc (doc.scenes.getD si {})) c' n) ∧
      (¬ Reaches doc (scene_root_list doc (doc.scenes.getD si {})) n →
        c'.state n = DFS_UNVISITED) ∧
      gltf_world_matrix doc c' n =
        (if c'.state n = DFS_DONE then some (c'.world n) else none) := by
  rw [gcwm_eq] at h
  by_cases h1 : cache.node_count ≠ doc.nodes.length
  · rw [if_pos h1] at h; exact Except.noConfusion h
  rw [if_neg h1] at h
  have hnc0 : cache.node_count = doc.nodes.length := not_not.mp h1
  by_cases h2 : si ≥ doc.scenes.length
  · rw [if_pos h2] at h; exact Except.noConfusion h
  rw [if_neg h2] at h
  by_cases h3 : (doc.scenes.getD si {}).nodes.count = 0
  · rw [if_pos h3] at h
    have hc := Except.ok.inj h
    subst hc
    have hroots : scene_root_list doc (doc.scenes.getD si {}) = [] := by
      unfold scene_root_list
      rw [h3]
      rfl
    intro n hn
    refine ⟨?_, ?_, ?_⟩
    · intro hreach
      rw [hroots] at hreach
      exact absurd hreach (reaches_nil doc n)
    · intro _
      rfl
    · unfold gltf_world_matrix
      rw [if_neg (by omega), if_neg (not_not_intro hnc0),
        if_neg (not_not_intro rfl),
        if_pos (show DFS_UNVISITED ≠ DFS_DONE by decide),
        if_neg (show ¬ DFS_UNVISITED = DFS_DONE by decide)]
  · rw [if_neg h3] at h
    by_cases h4 : (doc.scenes.getD si {}).nodes.first > doc.indices_u32.length ∨
        (doc.scenes.getD si {}).nodes.count >
          doc.indices_u32.length - (doc.scenes.getD si {}).nodes.first
    · rw [if_pos h4] at h; exact Except.noConfusion h
    rw [if_neg h4] at h
    cases hCR : compute_roots_go doc fuel
        (scene_root_list doc (doc.scenes.getD si {}))
        { cache with
          valid := false
          scene_index := si
          state := fun _ => DFS_UNVISITED } with
    | error e =>
      rw [hCR] at h
      have h' : (Except.error e : Except StepErr WorldCache) = .ok c' := h
      exact Except.noConfusion h'
    | ok c₂ =>
      rw [hCR] at h
      have h' : (Except.ok { c₂ with valid := true } :
          Except StepErr WorldCache) = .ok c' := h
      have hc := Except.ok.inj h'
      subst hc
      have hinv0 : DfsInv doc (scene_root_list doc (doc.scenes.getD si {}))
          { cache with
            valid := false
            scene_index := si
            state := fun _ => DFS_UNVISITED } [] := by
        refine ⟨?_, ?_, ?_, ?_, ?_, ?_, ?_, ?_⟩
        · intro n; show DFS_UNVISITED ≤ 2; decide
        · intro n hn; exact absurd rfl hn
        · intro n hn; exact absurd rfl hn
        · intro n hn; exact absurd rfl hn
        · intro n hn1
          exact absurd hn1 (show ¬ DFS_UNVISITED = DFS_VISITING by decide)
        · intro n hn2
          exact absurd hn2 (show ¬ DFS_UNVISITED = DFS_DONE by decide)
        · intro g hg; exact absurd hg (List.not_mem_nil g)
        · exact trivial
      obtain ⟨hi, hm, hnc2, hvd2, hall⟩ :=
        compute_roots_preserves doc
          (scene_root_list doc (doc.scenes.getD si {})) fuel
          (scene_root_list doc (doc.scenes.getD si {})) _ c₂
          (fun r hr => hr) hinv0 hCR
      have hrd : ∀ m, Reaches doc
          (scene_root_list doc (doc.scenes.getD si {})) m →
          c₂.state m = DFS_DONE := by
        intro m hm2
        induction hm2 with
        | root hmem => exact hall _ hmem
        | child hp hcm ih => exact ((hi.done_closed _ ih).2 _ hcm).2
      have hfin_nc : c₂.node_count = doc.nodes.length := by
        rw [hnc2]; exact hnc0
      intro n hn
      refine ⟨?_, ?_, ?_⟩
      · intro hreach
        have hd := hrd n hreach
        refine ⟨hd, ?_⟩
        have hne : c₂.state n ≠ DFS_UNVISITED := by rw [hd]; decide
        exact hi.world_ok n hne
      · intro hnr
        by_cases hs0 : c₂.state n = DFS_UNVISITED
        · exact hs0
        · exact absurd (hi.reach n hs0) hnr
      · by_cases hsD : c₂.state n = DFS_DONE
        · unfold gltf_world_matrix
          rw [if_neg (by omega), if_neg (not_not_intro hfin_nc),
            if_neg (not_not_intro rfl), if_neg (not_not_intro hsD),
            if_pos hsD]
        · unfold gltf_world_matrix
          rw [if_neg (by omega), if_neg (not_not_intro hfin_nc),
            if_neg (not_not_intro rfl), if_pos hsD, if_neg hsD]

theorem c7_unreachable_aux : ∀ m, Reaches chain_doc
    (scene_root_list chain_doc (chain_doc.scenes.getD 0 {})) m →
    m = 0 ∨ m = 1 := by
  intro m hm
  induction hm with
  | root hmem =>
    have h0 : scene_root_list chain_doc (chain_doc.scenes.getD 0 {}) = [0] :=
      rfl
    rw [h0] at hmem
    left
    exact List.mem_singleton.mp hmem
  | child hp hcm ih =>
    rcases ih with h0 | h1
    · subst h0
      right
      have hc0 : child_list chain_doc 0 = [1] := rfl
      rw [hc0] at hcm
      exact List.mem_singleton.mp hcm
    · subst h1
      have hc1 : child_list chain_doc 1 = [] := rfl
      rw [hc1] at hcm
      exact absurd hcm (List.not_mem_nil _)

theorem gltf_compute_world_matrices_correct_witness :
    gltf_compute_world_matrices chain_doc 0 (fresh_cache 3) 9 =
      .ok c7w_cache ∧
    (c7w_cache.state 1 = DFS_DONE ∧
      WorldSpec chain_doc
        (scene_root_list chain_doc (chain_doc.scenes.getD 0 {}))
        c7w_cache 1) ∧
    c7w_cache.state 2 = DFS_UNVISITED := by
  have hok : gltf_compute_world_matrices chain_doc 0 (fresh_cache 3) 9 =
      .ok c7w_cache := rfl
  refine ⟨hok, ?_, ?_⟩
  · refine (gltf_compute_world_matrices_correct chain_doc 0 (fresh_cache 3) 9
      c7w_cache hok 1 (by decide)).1 ?_
    exact @Reaches.child chain_doc
      (scene_root_list chain_doc (chain_doc.scenes.getD 0 {})) 0 1
      (@Reaches.root chain_doc
        (scene_root_list chain_doc (chain_doc.scenes.getD 0 {})) 0 (by decide))
      (by decide)
  · refine (gltf_compute_world_matrices_correct chain_doc 0 (fresh_cache 3) 9
      c7w_cache hok 2 (by decide)).2.1 ?_
    intro hr
    rcases c7_unreachable_aux 2 hr with h | h <;> exact absurd h (by decide)

end Gltf
